import Mathlib

/-!
Mundi cloth subsystem: a shallow embedding and its verified properties.

Sources embedded here:
* `Source/Runtime/Engine/Physics/ClothSimulationSystem.{h,cpp}` (`FClothSimulationSystem`)
* `Source/Runtime/Engine/Components/ClothComponent.{h,cpp}` (`UClothComponent`)

Conventions.
* A pointer is `Ptr = Option Nat`; `none` is `nullptr`, `some h` is the object with handle `h`.
* `float` values are only stored, copied and forwarded by the embedded code, so the scalar
  type is a parameter `F`; the literal `1.0f` is `(1 : F)`.
* The NvCloth / PhysX library is external.  Its answers are a parameter `NvBackend F`; every
  non-const call the code issues to it is recorded, in program order, as an `NvCall F`
  (creation calls together with the value they returned).  Const getters
  (`getSimulationChunkCount`, `getNumParticles`, `getCurrentParticles`, ...) are read from the
  backend and not recorded.
* A method of the source becomes a function returning the new object state together with the
  list of calls that this invocation issued.
-/

namespace Mundi

/-- A raw pointer: `none` is `nullptr`. -/
abbrev Ptr := Option Nat

/-- Engine vector `FVector` (fields `X`, `Y`, `Z`). -/
structure FVector (F : Type) where
  X : F
  Y : F
  Z : F
deriving DecidableEq, Repr

/-- Engine quaternion `FQuat` (fields `X`, `Y`, `Z`, `W`). -/
structure FQuat (F : Type) where
  X : F
  Y : F
  Z : F
  W : F
deriving DecidableEq, Repr

/-- PhysX vector `physx::PxVec3`. -/
structure PxVec3 (F : Type) where
  x : F
  y : F
  z : F
deriving DecidableEq, Repr

/-- PhysX vector `physx::PxVec4`. -/
structure PxVec4 (F : Type) where
  x : F
  y : F
  z : F
  w : F
deriving DecidableEq, Repr

/-- PhysX quaternion `physx::PxQuat`. -/
structure PxQuat (F : Type) where
  x : F
  y : F
  z : F
  w : F
deriving DecidableEq, Repr

/-- The mesh descriptor `nv::cloth::ClothMeshDesc` as `CreateClothFromMesh` fills it: for each
of `points`, `triangles`, `invMasses` the data the pointer refers to and the `count` written
next to it (the strides are compile-time constants). -/
structure ClothMeshDesc (F : Type) where
  pointsData : List (PxVec3 F)
  pointsCount : Nat
  trianglesData : List Nat
  trianglesCount : Nat
  invMassesData : List F
  invMassesCount : Nat
deriving DecidableEq, Repr

/-- One recorded call into the NvCloth backend.  The first argument of a member call is the
handle of the object it is called on; creation calls carry the pointer they returned. -/
inductive NvCall (F : Type) where
  | InitializeNvCloth
  | NvClothCreateFactoryCPU (result : Ptr)
  | createSolver (factory : Nat) (result : Ptr)
  | NvClothDestroyFactory (factory : Nat)
  | deleteSolver (solver : Nat)
  | addCloth (solver : Nat) (cloth : Nat)
  | removeCloth (solver : Nat) (cloth : Nat)
  | beginSimulation (solver : Nat) (dt : F) (result : Bool)
  | simulateChunk (solver : Nat) (i : Nat)
  | endSimulation (solver : Nat)
  | NvClothCookFabricFromMesh (factory : Nat) (desc : ClothMeshDesc F) (gravityDir : PxVec3 F)
      (result : Ptr)
  | createCloth (factory : Nat) (particles : List (PxVec4 F)) (fabric : Nat) (result : Ptr)
  | decRefCount (fabric : Nat)
  | deleteCloth (cloth : Nat)
  | setGravity (cloth : Nat) (v : PxVec3 F)
  | setDamping (cloth : Nat) (v : PxVec3 F)
  | setSolverFrequency (cloth : Nat) (v : F)
  | setWindVelocity (cloth : Nat) (v : PxVec3 F)
  | setDragCoefficient (cloth : Nat) (v : F)
  | setLiftCoefficient (cloth : Nat) (v : F)
  | setFriction (cloth : Nat) (v : F)
  | setSelfCollisionDistance (cloth : Nat) (v : F)
  | setSelfCollisionStiffness (cloth : Nat) (v : F)
  | setTetherConstraintScale (cloth : Nat) (v : F)
  | setTetherConstraintStiffness (cloth : Nat) (v : F)
  | setLinearInertia (cloth : Nat) (v : PxVec3 F)
  | setAngularInertia (cloth : Nat) (v : PxVec3 F)
  | setCentrifugalInertia (cloth : Nat) (v : PxVec3 F)
  | setTranslation (cloth : Nat) (v : PxVec3 F)
  | setRotation (cloth : Nat) (q : PxQuat F)
  | setSpheres (cloth : Nat) (range : List (PxVec4 F)) (first : Nat) (last : Nat)
  | setCapsules (cloth : Nat) (range : List Nat) (first : Nat) (last : Nat)
deriving DecidableEq, Repr

/-- What the external NvCloth / PhysX library answers.  The code under verification never
looks inside these; every claim is stated for an arbitrary backend. -/
structure NvBackend (F : Type) where
  /-- Answer of `NvClothCreateFactoryCPU()`. -/
  NvClothCreateFactoryCPU : Ptr
  /-- Answer of `Factory->createSolver()`. -/
  createSolver : Nat → Ptr
  /-- Answer of `Solver->beginSimulation(DeltaTime)`. -/
  beginSimulation : Nat → F → Bool
  /-- Answer of `Solver->getSimulationChunkCount()` (an `int`). -/
  getSimulationChunkCount : Nat → Int
  /-- Answer of `PxVec3::normalize()`: the vector after in-place normalisation. -/
  normalize : PxVec3 F → PxVec3 F
  /-- Answer of `NvClothCookFabricFromMesh(Factory, MeshDesc, GravityDir, nullptr, true)`. -/
  NvClothCookFabricFromMesh : Nat → ClothMeshDesc F → PxVec3 F → Ptr
  /-- Answer of `Factory->createCloth(Range(Particles), *Fabric)`. -/
  createCloth : Nat → List (PxVec4 F) → Nat → Ptr
  /-- Answer of `Cloth->getCurrentParticles()`, as the indexable range it returns. -/
  getCurrentParticles : Nat → Nat → PxVec4 F
  /-- Answer of `Cloth->getNumParticles()`. -/
  getNumParticles : Nat → Nat
  /-- Answer of `Cloth->getNumSpheres()`. -/
  getNumSpheres : Nat → Nat
  /-- Answer of `Cloth->getNumCapsules()`. -/
  getNumCapsules : Nat → Nat

/-! ## `TArray` helpers -/

/-- Source: `TArray::Find`: index of the first element equal to `x`; `none` is `INDEX_NONE`. -/
def TArray.Find {α : Type} [DecidableEq α] : List α → α → Option Nat
  | [], _ => none
  | a :: as, x =>
    if a = x then some 0
    else
      match TArray.Find as x with
      | some i => some (i + 1)
      | none => none

/-- Source: `TArray::RemoveAt(Index)`. -/
def TArray.RemoveAt {α : Type} (xs : List α) (Index : Nat) : List α :=
  xs.eraseIdx Index

/-! ## `FClothSimulationSystem` -/

/-- The data members of `FClothSimulationSystem`. -/
structure FClothSimulationSystem where
  Factory : Ptr
  Solver : Ptr
  RegisteredCloths : List Ptr
  bInitialized : Bool
deriving DecidableEq, Repr

namespace FClothSimulationSystem

/-- The state after the constructor: the in-class member initialisers. -/
def ctor : FClothSimulationSystem :=
  { Factory := none, Solver := none, RegisteredCloths := [], bInitialized := false }

/-- Source: `GetFactory()`. -/
def GetFactory (s : FClothSimulationSystem) : Ptr := s.Factory

/-- Source: `GetSolver()`. -/
def GetSolver (s : FClothSimulationSystem) : Ptr := s.Solver

/-- Source: `IsInitialized()`. -/
def IsInitialized (s : FClothSimulationSystem) : Bool := s.bInitialized

/-- What one `Initialize()` call produces: its return value, the object afterwards, the
file-static flag `GNvClothInitialized` afterwards and the backend calls issued. -/
structure InitializeResult (F : Type) where
  ret : Bool
  sys : FClothSimulationSystem
  GNvClothInitialized : Bool
  calls : List (NvCall F)

/-- Source: `FClothSimulationSystem::Initialize()`; `G` is the file-static `GNvClothInitialized`. -/
def Initialize {F : Type} (B : NvBackend F) (G : Bool) (s : FClothSimulationSystem) :
    InitializeResult F :=
  if s.bInitialized then
    { ret := true, sys := s, GNvClothInitialized := G, calls := [] }
  else
    let k0 : List (NvCall F) := if !G then [NvCall.InitializeNvCloth] else []
    let G1 : Bool := if !G then true else G
    match B.NvClothCreateFactoryCPU with
    | none =>
      { ret := false
        sys := { s with Factory := none }
        GNvClothInitialized := G1
        calls := k0 ++ [NvCall.NvClothCreateFactoryCPU none] }
    | some f =>
      match B.createSolver f with
      | none =>
        { ret := false
          sys := { s with Factory := none, Solver := none }
          GNvClothInitialized := G1
          calls := k0 ++ [NvCall.NvClothCreateFactoryCPU (some f), NvCall.createSolver f none,
            NvCall.NvClothDestroyFactory f] }
      | some sv =>
        { ret := true
          sys := { s with Factory := some f, Solver := some sv, bInitialized := true }
          GNvClothInitialized := G1
          calls := k0 ++ [NvCall.NvClothCreateFactoryCPU (some f),
            NvCall.createSolver f (some sv)] }

/-- The body of the loop in `Shutdown()` for one element of `RegisteredCloths`. -/
def ShutdownLoopBody {F : Type} (Solver : Ptr) (Cloth : Ptr) : List (NvCall F) :=
  match Solver, Cloth with
  | some sv, some c => [NvCall.removeCloth sv c]
  | _, _ => []

/-- Source: `FClothSimulationSystem::Shutdown()`. -/
def Shutdown {F : Type} (s : FClothSimulationSystem) :
    FClothSimulationSystem × List (NvCall F) :=
  if !s.bInitialized then (s, [])
  else
    let k1 : List (NvCall F) := (s.RegisteredCloths.map (ShutdownLoopBody s.Solver)).flatten
    let k2 : List (NvCall F) :=
      match s.Solver with
      | some sv => [NvCall.deleteSolver sv]
      | none => []
    let k3 : List (NvCall F) :=
      match s.Factory with
      | some f => [NvCall.NvClothDestroyFactory f]
      | none => []
    ({ Factory := none, Solver := none, RegisteredCloths := [], bInitialized := false },
      k1 ++ k2 ++ k3)

/-- Source: `FClothSimulationSystem::Simulate(DeltaTime)`: the object is not written, so only the
calls are returned.  `ChunkCount` is an `int32`; the loop `for (i = 0; i < ChunkCount; i++)`
runs `ChunkCount.toNat` times. -/
def Simulate {F : Type} (B : NvBackend F) (s : FClothSimulationSystem) (DeltaTime : F) :
    List (NvCall F) :=
  if !s.bInitialized then []
  else
    match s.Solver with
    | none => []
    | some sv =>
      if s.RegisteredCloths.length = 0 then []
      else if B.beginSimulation sv DeltaTime then
        let ChunkCount : Int := B.getSimulationChunkCount sv
        [NvCall.beginSimulation sv DeltaTime true]
          ++ (List.range ChunkCount.toNat).map (fun i => NvCall.simulateChunk sv i)
          ++ [NvCall.endSimulation sv]
      else [NvCall.beginSimulation sv DeltaTime false]

/-- Source: `FClothSimulationSystem::RegisterCloth(Cloth)`. -/
def RegisterCloth {F : Type} (s : FClothSimulationSystem) (Cloth : Ptr) :
    FClothSimulationSystem × List (NvCall F) :=
  if !s.bInitialized then (s, [])
  else
    match s.Solver, Cloth with
    | some sv, some c =>
      match TArray.Find s.RegisteredCloths Cloth with
      | none => ({ s with RegisteredCloths := s.RegisteredCloths ++ [Cloth] }, [NvCall.addCloth sv c])
      | some _ => (s, [])
    | _, _ => (s, [])

/-- Source: `FClothSimulationSystem::UnregisterCloth(Cloth)`. -/
def UnregisterCloth {F : Type} (s : FClothSimulationSystem) (Cloth : Ptr) :
    FClothSimulationSystem × List (NvCall F) :=
  match s.Solver, Cloth with
  | some sv, some c =>
    match TArray.Find s.RegisteredCloths Cloth with
    | some Index =>
      ({ s with RegisteredCloths := TArray.RemoveAt s.RegisteredCloths Index },
        [NvCall.removeCloth sv c])
    | none => (s, [])
  | _, _ => (s, [])

end FClothSimulationSystem

/-! ## `UClothComponent` -/

/-- Modelled from the spec: the declaration of `FClothConfig` is not among the sources (the
header at hand predates it).  Its fields are the ones section 3 of the specification lists
for ClothConfig, under the names `ApplyClothConfig` reads them by. -/
structure FClothConfig (F : Type) where
  Gravity : FVector F
  Damping : FVector F
  SolverFrequency : F
  WindVelocity : FVector F
  DragCoefficient : F
  LiftCoefficient : F
  Friction : F
  SelfCollisionDistance : F
  SelfCollisionStiffness : F
  TetherConstraintScale : F
  TetherConstraintStiffness : F
  LinearInertia : FVector F
  AngularInertia : FVector F
  CentrifugalInertia : FVector F
deriving DecidableEq, Repr

/-- The data members of `UClothComponent` that `ClothComponent.cpp` reads or writes. -/
structure UClothComponent (F : Type) where
  Fabric : Ptr
  Cloth : Ptr
  InitialPositions : List (FVector F)
  InitialInvMasses : List F
  bSimulationEnabled : Bool
  ClothConfig : FClothConfig F
  CollisionSpheres : List (FVector F)
  CollisionRadii : List F
  CollisionCapsuleIndices : List Nat
  CachedTranslation : FVector F
  CachedRotation : FQuat F
  bClothInitialized : Bool
deriving DecidableEq, Repr

/-- The `UWorld` a component lives in, as far as `GetClothSystem` looks at it:
`GetClothSimulationSystem()` returns the system or `nullptr`. -/
structure UWorld where
  ClothSimulationSystem : Option FClothSimulationSystem
deriving DecidableEq, Repr

/-- A component together with what its `GetWorld()` points to (`none`: no world). -/
structure Scene (F : Type) where
  Comp : UClothComponent F
  World : Option UWorld
deriving DecidableEq, Repr

namespace UClothComponent

/-- Source: `UClothComponent::GetClothSystem()`. -/
def GetClothSystem {F : Type} (st : Scene F) : Option FClothSimulationSystem :=
  match st.World with
  | some World => World.ClothSimulationSystem
  | none => none

/-- Source: `IsClothValid()`: `Cloth != nullptr`. -/
def IsClothValid {F : Type} (st : Scene F) : Bool := st.Comp.Cloth.isSome

/-- Source: `UClothComponent::DestroyCloth()`. -/
def DestroyCloth {F : Type} (st : Scene F) : Scene F × List (NvCall F) :=
  let r1 : Option UWorld × List (NvCall F) :=
    match st.Comp.Cloth with
    | some c =>
      match GetClothSystem st with
      | some ClothSystem =>
        let u := ClothSystem.UnregisterCloth (some c)
        (some { ClothSimulationSystem := some u.1 }, u.2 ++ [NvCall.deleteCloth c])
      | none => (st.World, [NvCall.deleteCloth c])
    | none => (st.World, [])
  let k2 : List (NvCall F) :=
    match st.Comp.Fabric with
    | some f => [NvCall.decRefCount f]
    | none => []
  ({ Comp := { st.Comp with
        Cloth := none
        Fabric := none
        bClothInitialized := false
        InitialPositions := []
        InitialInvMasses := []
        CollisionSpheres := []
        CollisionRadii := []
        CollisionCapsuleIndices := [] }
     World := r1.1 },
   r1.2 ++ k2)

/-- Conversion of `FVector` to `physx::PxVec3`, as written inline at every setter call. -/
def toPx {F : Type} (v : FVector F) : PxVec3 F := ⟨v.X, v.Y, v.Z⟩

/-- The setter calls of `ApplyClothConfig` on the instance `c`, in program order. -/
def ApplyClothConfigCalls {F : Type} (c : Nat) (Config : FClothConfig F) : List (NvCall F) :=
  [ NvCall.setGravity c (toPx Config.Gravity),
    NvCall.setDamping c (toPx Config.Damping),
    NvCall.setSolverFrequency c Config.SolverFrequency,
    NvCall.setWindVelocity c (toPx Config.WindVelocity),
    NvCall.setDragCoefficient c Config.DragCoefficient,
    NvCall.setLiftCoefficient c Config.LiftCoefficient,
    NvCall.setFriction c Config.Friction,
    NvCall.setSelfCollisionDistance c Config.SelfCollisionDistance,
    NvCall.setSelfCollisionStiffness c Config.SelfCollisionStiffness,
    NvCall.setTetherConstraintScale c Config.TetherConstraintScale,
    NvCall.setTetherConstraintStiffness c Config.TetherConstraintStiffness,
    NvCall.setLinearInertia c (toPx Config.LinearInertia),
    NvCall.setAngularInertia c (toPx Config.AngularInertia),
    NvCall.setCentrifugalInertia c (toPx Config.CentrifugalInertia) ]

/-- Source: `UClothComponent::ApplyClothConfig(Config)`. -/
def ApplyClothConfig {F : Type} (C : UClothComponent F) (Config : FClothConfig F) :
    UClothComponent F × List (NvCall F) :=
  let C1 := { C with ClothConfig := Config }
  match C1.Cloth with
  | none => (C1, [])
  | some c => (C1, ApplyClothConfigCalls c Config)

/-- What one `CreateClothFromMesh` call produces. -/
structure CreateResult (F : Type) where
  ret : Bool
  st : Scene F
  calls : List (NvCall F)

/-- The array `InvMassData` built in `CreateClothFromMesh`. -/
def InvMassData {F : Type} [One F] (Vertices : List (FVector F)) (InvMasses : List F) : List F :=
  if InvMasses.length = Vertices.length then InvMasses
  else List.replicate Vertices.length 1

/-- The array `Particles` built in `CreateClothFromMesh`: entry `i` is
`PxVec4(Vertices[i].X, Vertices[i].Y, Vertices[i].Z, InvMassData[i])` for every
`i < Vertices.Num()` (both arrays have `Vertices.Num()` entries). -/
def Particles {F : Type} (Vertices : List (FVector F)) (InvMassData : List F) :
    List (PxVec4 F) :=
  List.zipWith (fun V w => PxVec4.mk V.X V.Y V.Z w) Vertices InvMassData

/-- The `MeshDesc` filled in by `CreateClothFromMesh`. -/
def MeshDesc {F : Type} (Vertices : List (FVector F)) (Indices : List Nat)
    (InvMassData : List F) : ClothMeshDesc F :=
  let PxVertices := Vertices.map toPx
  { pointsData := PxVertices
    pointsCount := PxVertices.length
    trianglesData := Indices
    trianglesCount := Indices.length / 3
    invMassesData := InvMassData
    invMassesCount := InvMassData.length }

/-- Source: `UClothComponent::CreateClothFromMesh(Vertices, Indices, InvMasses)`. -/
def CreateClothFromMesh {F : Type} [One F] (B : NvBackend F) (st : Scene F)
    (Vertices : List (FVector F)) (Indices : List Nat) (InvMasses : List F) :
    CreateResult F :=
  let d := DestroyCloth st
  let st1 := d.1
  if Vertices.length < 3 ∨ Indices.length < 3 then ⟨false, st1, d.2⟩
  else
    match GetClothSystem st1 with
    | none => ⟨false, st1, d.2⟩
    | some ClothSystem =>
      if !ClothSystem.IsInitialized then ⟨false, st1, d.2⟩
      else
        match ClothSystem.GetFactory with
        | none => ⟨false, st1, d.2⟩
        | some Factory =>
          let C1 : UClothComponent F :=
            { st1.Comp with InitialPositions := Vertices, InitialInvMasses := InvMasses }
          let InvMassData := InvMassData Vertices InvMasses
          let MeshDesc := MeshDesc Vertices Indices InvMassData
          let GravityDir := B.normalize (toPx C1.ClothConfig.Gravity)
          let Fabric := B.NvClothCookFabricFromMesh Factory MeshDesc GravityDir
          let kCook := NvCall.NvClothCookFabricFromMesh Factory MeshDesc GravityDir Fabric
          match Fabric with
          | none => ⟨false, { st1 with Comp := { C1 with Fabric := none } }, d.2 ++ [kCook]⟩
          | some fab =>
            let Particles := Particles Vertices InvMassData
            let Cloth := B.createCloth Factory Particles fab
            let kCreate := NvCall.createCloth Factory Particles fab Cloth
            match Cloth with
            | none =>
              ⟨false, { st1 with Comp := { C1 with Fabric := none, Cloth := none } },
                d.2 ++ [kCook, kCreate, NvCall.decRefCount fab]⟩
            | some c =>
              let C2 : UClothComponent F := { C1 with Fabric := some fab, Cloth := some c }
              let a := ApplyClothConfig C2 C2.ClothConfig
              let r := ClothSystem.RegisterCloth (some c)
              ⟨true,
                { Comp := { a.1 with bClothInitialized := true }
                  World := some { ClothSimulationSystem := some r.1 } },
                d.2 ++ [kCook, kCreate] ++ a.2 ++ r.2⟩

/-- Source: `UClothComponent::GetSimulatedPositions(OutPositions)`: the array after the call.  It is
emptied first, so the result does not depend on what `OutPositions` held before. -/
def GetSimulatedPositions {F : Type} (B : NvBackend F) (st : Scene F)
    (OutPositions : List (FVector F)) : List (FVector F) :=
  let OutPositions : List (FVector F) := OutPositions.take 0
  match st.Comp.Cloth with
  | none => OutPositions
  | some c =>
    let Particles := B.getCurrentParticles c
    let NumParticles := B.getNumParticles c
    (List.range NumParticles).map (fun i =>
      let P := Particles i
      FVector.mk P.x P.y P.z)

/-- Source: `UClothComponent::GetNumParticles()`. -/
def GetNumParticles {F : Type} (B : NvBackend F) (st : Scene F) : Nat :=
  match st.Comp.Cloth with
  | some c => B.getNumParticles c
  | none => 0

/-- Source: `UClothComponent::UpdateClothTransform(Translation, Rotation)`. -/
def UpdateClothTransform {F : Type} (C : UClothComponent F) (Translation : FVector F)
    (Rotation : FQuat F) : UClothComponent F × List (NvCall F) :=
  match C.Cloth with
  | none => (C, [])
  | some c =>
    ({ C with CachedTranslation := Translation, CachedRotation := Rotation },
      [NvCall.setTranslation c (toPx Translation),
       NvCall.setRotation c ⟨Rotation.X, Rotation.Y, Rotation.Z, Rotation.W⟩])

/-- The array `Spheres` built in `AddCollisionSphere`: entry `i` is
`PxVec4(CollisionSpheres[i].X, .Y, .Z, CollisionRadii[i])`. -/
def Spheres {F : Type} (CollisionSpheres : List (FVector F)) (CollisionRadii : List F) :
    List (PxVec4 F) :=
  List.zipWith (fun C r => PxVec4.mk C.X C.Y C.Z r) CollisionSpheres CollisionRadii

/-- Source: `UClothComponent::AddCollisionSphere(Center, Radius)`. -/
def AddCollisionSphere {F : Type} (C : UClothComponent F) (Center : FVector F) (Radius : F) :
    UClothComponent F × List (NvCall F) :=
  match C.Cloth with
  | none => (C, [])
  | some c =>
    let C1 : UClothComponent F :=
      { C with
        CollisionSpheres := C.CollisionSpheres ++ [Center]
        CollisionRadii := C.CollisionRadii ++ [Radius] }
    let Spheres := Spheres C1.CollisionSpheres C1.CollisionRadii
    (C1, [NvCall.setSpheres c Spheres 0 Spheres.length])

/-- Source: `UClothComponent::AddCollisionCapsule(SphereIndex0, SphereIndex1)`. -/
def AddCollisionCapsule {F : Type} (C : UClothComponent F) (SphereIndex0 SphereIndex1 : Nat) :
    UClothComponent F × List (NvCall F) :=
  match C.Cloth with
  | none => (C, [])
  | some c =>
    if SphereIndex0 ≥ C.CollisionSpheres.length ∨ SphereIndex1 ≥ C.CollisionSpheres.length then
      (C, [])
    else
      let C1 : UClothComponent F :=
        { C with
          CollisionCapsuleIndices := C.CollisionCapsuleIndices ++ [SphereIndex0] ++ [SphereIndex1] }
      (C1, [NvCall.setCapsules c C1.CollisionCapsuleIndices 0
        (C1.CollisionCapsuleIndices.length / 2)])

/-- Source: `UClothComponent::ClearCollision()`. -/
def ClearCollision {F : Type} (B : NvBackend F) (C : UClothComponent F) :
    UClothComponent F × List (NvCall F) :=
  let C1 : UClothComponent F :=
    { C with CollisionSpheres := [], CollisionRadii := [], CollisionCapsuleIndices := [] }
  match C1.Cloth with
  | some c =>
    (C1, [NvCall.setSpheres c [] 0 (B.getNumSpheres c),
          NvCall.setCapsules c [] 0 (B.getNumCapsules c)])
  | none => (C1, [])

end UClothComponent

/-! ## Reachable system states -/

/-- The states a `FClothSimulationSystem` object can be in: the constructed object, and what
its public mutating methods make of a reachable state, for any backend and arguments.
(`Simulate` does not write the object.) -/
inductive SysReachable : FClothSimulationSystem → Prop where
  | ctor : SysReachable FClothSimulationSystem.ctor
  | Initialize {F : Type} (B : NvBackend F) (G : Bool) {s : FClothSimulationSystem} :
      SysReachable s → SysReachable (FClothSimulationSystem.Initialize B G s).sys
  | Shutdown (F : Type) {s : FClothSimulationSystem} :
      SysReachable s → SysReachable (FClothSimulationSystem.Shutdown (F := F) s).1
  | RegisterCloth (F : Type) (Cloth : Ptr) {s : FClothSimulationSystem} :
      SysReachable s → SysReachable (FClothSimulationSystem.RegisterCloth (F := F) s Cloth).1
  | UnregisterCloth (F : Type) (Cloth : Ptr) {s : FClothSimulationSystem} :
      SysReachable s → SysReachable (FClothSimulationSystem.UnregisterCloth (F := F) s Cloth).1

/-- The representation invariant of `FClothSimulationSystem`. -/
structure SysInv (s : FClothSimulationSystem) : Prop where
  uninit : s.bInitialized = false → s.Factory = none ∧ s.Solver = none ∧ s.RegisteredCloths = []
  init : s.bInitialized = true → s.Factory.isSome = true ∧ s.Solver.isSome = true
  nodup : s.RegisteredCloths.Nodup
  nonnull : none ∉ s.RegisteredCloths

/-! ## Reachable wrapper states -/

/-- The component after its constructor: null pointers, empty arrays and
`bClothInitialized = false` from the in-class initialisers; the configuration and the cached
transform are what their own default constructors give, left open here. -/
def UClothComponent.ctor {F : Type} (ClothConfig : FClothConfig F)
    (CachedTranslation : FVector F) (CachedRotation : FQuat F) : UClothComponent F :=
  { Fabric := none
    Cloth := none
    InitialPositions := []
    InitialInvMasses := []
    bSimulationEnabled := true
    ClothConfig := ClothConfig
    CollisionSpheres := []
    CollisionRadii := []
    CollisionCapsuleIndices := []
    CachedTranslation := CachedTranslation
    CachedRotation := CachedRotation
    bClothInitialized := false }

/-- The states a wrapper can be in: the constructed component in any world, and what the
public methods of `ClothComponent.cpp` make of a reachable state, for any backend and
arguments; the world around the component may change in any way between calls. -/
inductive SceneReachable {F : Type} [One F] : Scene F → Prop where
  | ctor (ClothConfig : FClothConfig F) (CachedTranslation : FVector F)
      (CachedRotation : FQuat F) (World : Option UWorld) :
      SceneReachable
        { Comp := UClothComponent.ctor ClothConfig CachedTranslation CachedRotation
          World := World }
  | world (World : Option UWorld) {st : Scene F} :
      SceneReachable st → SceneReachable { st with World := World }
  | CreateClothFromMesh (B : NvBackend F) (Vertices : List (FVector F)) (Indices : List Nat)
      (InvMasses : List F) {st : Scene F} :
      SceneReachable st →
      SceneReachable (UClothComponent.CreateClothFromMesh B st Vertices Indices InvMasses).st
  | DestroyCloth {st : Scene F} :
      SceneReachable st → SceneReachable (UClothComponent.DestroyCloth st).1
  | ApplyClothConfig (Config : FClothConfig F) {st : Scene F} :
      SceneReachable st →
      SceneReachable { st with Comp := (UClothComponent.ApplyClothConfig st.Comp Config).1 }
  | UpdateClothTransform (Translation : FVector F) (Rotation : FQuat F) {st : Scene F} :
      SceneReachable st →
      SceneReachable
        { st with Comp := (UClothComponent.UpdateClothTransform st.Comp Translation Rotation).1 }
  | AddCollisionSphere (Center : FVector F) (Radius : F) {st : Scene F} :
      SceneReachable st →
      SceneReachable
        { st with Comp := (UClothComponent.AddCollisionSphere st.Comp Center Radius).1 }
  | AddCollisionCapsule (SphereIndex0 SphereIndex1 : Nat) {st : Scene F} :
      SceneReachable st →
      SceneReachable
        { st with
          Comp := (UClothComponent.AddCollisionCapsule st.Comp SphereIndex0 SphereIndex1).1 }
  | ClearCollision (B : NvBackend F) {st : Scene F} :
      SceneReachable st →
      SceneReachable { st with Comp := (UClothComponent.ClearCollision B st.Comp).1 }

/-- The invariant of the three collision arrays of a component. -/
structure CollisionInv {F : Type} (C : UClothComponent F) : Prop where
  radii : C.CollisionSpheres.length = C.CollisionRadii.length
  even : C.CollisionCapsuleIndices.length % 2 = 0
  bound : ∀ i ∈ C.CollisionCapsuleIndices, i < C.CollisionSpheres.length
  staged : C.Cloth = none →
    C.CollisionSpheres = [] ∧ C.CollisionRadii = [] ∧ C.CollisionCapsuleIndices = []

/-- Whether a recorded call updates the collision primitives of an instance. -/
def NvCall.isCollisionCall {F : Type} : NvCall F → Bool
  | NvCall.setSpheres _ _ _ _ => true
  | NvCall.setCapsules _ _ _ _ => true
  | _ => false

/-! ## Cloth authoring persistence (`SkeletalMesh.cpp`) -/

/-- Modelled from the spec: the JSON value class `SkeletalMesh.cpp` builds and reads is not
among the sources.  A value is null, an object (members by key), an array, a string, a
floating or integral number, or a boolean; a number is held exactly as it was put in. -/
inductive JSON (F : Type) where
  | Null
  | Object (members : List (String × JSON F))
  | Array (items : List (JSON F))
  | Str (value : String)
  | Floating (value : F)
  | Integral (value : Int)
  | Boolean (value : Bool)

/-- Modelled from the spec: the member of an object stored under `key` (`hasKey` / `at`);
`none` when the value is no object or has no such member. -/
def JSON.member {F : Type} (j : JSON F) (key : String) : Option (JSON F) :=
  match j with
  | JSON.Object members => members.lookup key
  | _ => none

/-- Modelled from the spec: the integer a value holds (`ToInt()`), `0` for a value that is no
integral number. -/
def JSON.ToInt {F : Type} : JSON F → Int
  | JSON.Integral n => n
  | _ => 0

/-- The conversion `static_cast<int64>(x)`. -/
def static_cast_int64 (x : Int) : Int := (x + 2 ^ 63) % 2 ^ 64 - 2 ^ 63

/-- The conversion `static_cast<int32>(x)`. -/
def static_cast_int32 (x : Int) : Int := (x + 2 ^ 31) % 2 ^ 32 - 2 ^ 31

/-- The conversion `static_cast<uint32>(x)`. -/
def static_cast_uint32 (x : Int) : Nat := (x % 2 ^ 32).toNat

namespace FJsonSerializer

/-- Modelled from the spec: `FJsonSerializer::ReadString` is not among the sources.  It yields
the string stored under the key, and fails (`none`) when the key is missing or holds no
string. -/
def ReadString {F : Type} (InJson : JSON F) (InKey : String) : Option String :=
  match InJson.member InKey with
  | some (JSON.Str s) => some s
  | _ => none

/-- Modelled from the spec: `FJsonSerializer::ReadArray` is not among the sources.  It yields
the items of the array stored under the key, and fails (`none`) when the key is missing or
holds no array. -/
def ReadArray {F : Type} (InJson : JSON F) (InKey : String) : Option (List (JSON F)) :=
  match InJson.member InKey with
  | some (JSON.Array items) => some items
  | _ => none

/-- Modelled from the spec: `FJsonSerializer::ReadInt32` is not among the sources.  The out
value is the integer stored under the key as an `int32`, or the given default when the field
is missing. -/
def ReadInt32 {F : Type} (InJson : JSON F) (InKey : String) (InDefaultValue : Int) : Int :=
  match InJson.member InKey with
  | some (JSON.Integral n) => static_cast_int32 n
  | _ => InDefaultValue

/-- Modelled from the spec: `FJsonSerializer::ReadFloat` is not among the sources.  The out
value is the number stored under the key, or the given default when the field is missing. -/
def ReadFloat {F : Type} (InJson : JSON F) (InKey : String) (InDefaultValue : F) : F :=
  match InJson.member InKey with
  | some (JSON.Floating x) => x
  | _ => InDefaultValue

/-- Modelled from the spec: `FJsonSerializer::VectorToJson` is not among the sources.  A
vector is written as the array of its three components. -/
def VectorToJson {F : Type} (InVector : FVector F) : JSON F :=
  JSON.Array [JSON.Floating InVector.X, JSON.Floating InVector.Y, JSON.Floating InVector.Z]

/-- Modelled from the spec: `FJsonSerializer::ReadVector` is not among the sources.  The out
value is the vector stored under the key as an array of three numbers, or the given default
when the field is missing. -/
def ReadVector {F : Type} (InJson : JSON F) (InKey : String) (InDefaultValue : FVector F) :
    FVector F :=
  match InJson.member InKey with
  | some (JSON.Array [JSON.Floating x, JSON.Floating y, JSON.Floating z]) => ⟨x, y, z⟩
  | _ => InDefaultValue

end FJsonSerializer

/-- The file operations `SkeletalMesh.cpp` calls, over some type `Disk` of file-system states;
none of them is among the sources, all are parameters. -/
structure FileApi (F : Type) (Disk : Type) where
  /-- Answer of `std::filesystem::exists(path)`. -/
  fileExists : Disk → String → Bool
  /-- Answer of `FJsonSerializer::LoadJsonFromFile(Root, path)`: the parsed document, `none`
  when it returns false. -/
  LoadJsonFromFile : Disk → String → Option (JSON F)
  /-- Answer of `FJsonSerializer::SaveJsonToFile(Root, path)` and the file system after it. -/
  SaveJsonToFile : Disk → JSON F → String → Bool × Disk
  /-- Answer of `std::filesystem::path(p).replace_extension(ext).string()`. -/
  replace_extension : String → String → String

/-- A file API reads back what it wrote: after a save that reported success the file exists and
loading it gives the saved document. -/
def FileApi.Faithful {F : Type} {Disk : Type} (api : FileApi F Disk) : Prop :=
  ∀ (D : Disk) (Root : JSON F) (path : String) (D2 : Disk),
    api.SaveJsonToFile D Root path = (true, D2) →
      api.fileExists D2 path = true ∧ api.LoadJsonFromFile D2 path = some Root

/-- Modelled from the spec: the declaration of `FClothAssetData` is not among the sources.
Its fields are the ones `SaveClothData` writes and `LoadClothData` reads (section 6 of the
specification): `SectionIndex` is an `int32`, the index arrays hold `uint32` values. -/
structure FClothAssetData (F : Type) where
  SectionIndex : Int
  ClothVertexIndices : List Nat
  FixedVertexIndices : List Nat
  Gravity : FVector F
  Damping : FVector F
  SolverFrequency : F
  WindVelocity : FVector F
  DragCoefficient : F
  LiftCoefficient : F
  StretchStiffness : F
  BendStiffness : F
deriving DecidableEq, Repr

/-- The values of a record fit their C++ types: `SectionIndex` is an `int32`, every index a
`uint32`. -/
def FClothAssetData.InRange {F : Type} (Cloth : FClothAssetData F) : Prop :=
  -(2 ^ 31 : Int) ≤ Cloth.SectionIndex ∧ Cloth.SectionIndex < 2 ^ 31 ∧
  (∀ Idx ∈ Cloth.ClothVertexIndices, Idx < 2 ^ 32) ∧
  (∀ Idx ∈ Cloth.FixedVertexIndices, Idx < 2 ^ 32)

/-- The members of `FSkeletalMeshData` that the cloth persistence reads or writes. -/
structure FSkeletalMeshData (F : Type) where
  PathFileName : String
  ClothAssets : List (FClothAssetData F)
deriving DecidableEq, Repr

/-- The member `Data` of `USkeletalMesh` (`none` is a null pointer). -/
structure USkeletalMesh (F : Type) where
  Data : Option (FSkeletalMeshData F)
deriving DecidableEq, Repr

/-- The messages `SaveClothData` and `LoadClothData` pass to `UE_LOG`. -/
inductive ClothLog where
  | SaveNoMeshData
  | SaveInvalidPath
  | SaveDone (path : String)
  | SaveCouldNotWrite
  | LoadNoMeshData
  | LoadCouldNotRead (path : String)
  | LoadInvalidFileType
  | LoadDone (path : String) (count : Nat)
deriving DecidableEq, Repr

namespace USkeletalMesh

/-- Source: `USkeletalMesh::GetClothDataPath()`. -/
def GetClothDataPath {F : Type} {Disk : Type} (api : FileApi F Disk) (M : USkeletalMesh F) :
    String :=
  match M.Data with
  | none => ""
  | some Data =>
    if Data.PathFileName = "" then ""
    else api.replace_extension Data.PathFileName ".cloth.json"

/-- The object `ClothJson` that the loop of `SaveClothData` builds for one record; the keys
are pairwise different, so every assignment adds a member. -/
def SaveClothJson {F : Type} (Cloth : FClothAssetData F) : JSON F :=
  JSON.Object
    [ ("SectionIndex", JSON.Integral Cloth.SectionIndex),
      ("ClothVertexIndices",
        JSON.Array (Cloth.ClothVertexIndices.map fun (Idx : Nat) =>
          JSON.Integral (static_cast_int64 (Idx : Int)))),
      ("FixedVertexIndices",
        JSON.Array (Cloth.FixedVertexIndices.map fun (Idx : Nat) =>
          JSON.Integral (static_cast_int64 (Idx : Int)))),
      ("Gravity", FJsonSerializer.VectorToJson Cloth.Gravity),
      ("Damping", FJsonSerializer.VectorToJson Cloth.Damping),
      ("SolverFrequency", JSON.Floating Cloth.SolverFrequency),
      ("WindVelocity", FJsonSerializer.VectorToJson Cloth.WindVelocity),
      ("DragCoefficient", JSON.Floating Cloth.DragCoefficient),
      ("LiftCoefficient", JSON.Floating Cloth.LiftCoefficient),
      ("StretchStiffness", JSON.Floating Cloth.StretchStiffness),
      ("BendStiffness", JSON.Floating Cloth.BendStiffness) ]

/-- The document `Root` that `SaveClothData` builds. -/
def SaveRoot {F : Type} (Data : FSkeletalMeshData F) : JSON F :=
  JSON.Object
    [ ("Type", JSON.Str "ClothAssetData"),
      ("MeshPath", JSON.Str Data.PathFileName),
      ("ClothAssets", JSON.Array (Data.ClothAssets.map SaveClothJson)) ]

/-- What one `SaveClothData` call produces: its return value, the file system afterwards and
the messages logged. -/
structure SaveResult (Disk : Type) where
  ret : Bool
  disk : Disk
  logs : List ClothLog

/-- Source: `USkeletalMesh::SaveClothData(FilePath)`. -/
def SaveClothData {F : Type} {Disk : Type} (api : FileApi F Disk) (D : Disk)
    (M : USkeletalMesh F) (FilePath : String) : SaveResult Disk :=
  match M.Data with
  | none => ⟨false, D, [ClothLog.SaveNoMeshData]⟩
  | some Data =>
    let Root := SaveRoot Data
    let SavePath := if FilePath = "" then GetClothDataPath api M else FilePath
    if SavePath = "" then ⟨false, D, [ClothLog.SaveInvalidPath]⟩
    else
      let w := api.SaveJsonToFile D Root SavePath
      if w.1 then ⟨true, w.2, [ClothLog.SaveDone SavePath]⟩
      else ⟨false, w.2, [ClothLog.SaveCouldNotWrite]⟩

/-- The indices that a loop of `LoadClothData` adds from an array member: none when
`ReadArray` fails, else `static_cast<uint32>(item.ToInt())` for every item in order. -/
def LoadIndices {F : Type} (ClothJson : JSON F) (Key : String) : List Nat :=
  match FJsonSerializer.ReadArray ClothJson Key with
  | some items => items.map fun item => static_cast_uint32 item.ToInt
  | none => []

/-- The record `Cloth` that one round of the loop of `LoadClothData` builds from `ClothJson`. -/
def LoadClothJson {F : Type} [OfScientific F] [Neg F] (ClothJson : JSON F) :
    FClothAssetData F :=
  { SectionIndex := FJsonSerializer.ReadInt32 ClothJson "SectionIndex" (-1)
    ClothVertexIndices := LoadIndices ClothJson "ClothVertexIndices"
    FixedVertexIndices := LoadIndices ClothJson "FixedVertexIndices"
    Gravity := FJsonSerializer.ReadVector ClothJson "Gravity" ⟨0.0, 0.0, -980.0⟩
    Damping := FJsonSerializer.ReadVector ClothJson "Damping" ⟨0.2, 0.2, 0.2⟩
    SolverFrequency := FJsonSerializer.ReadFloat ClothJson "SolverFrequency" 120.0
    WindVelocity := FJsonSerializer.ReadVector ClothJson "WindVelocity" ⟨0.0, 0.0, 0.0⟩
    DragCoefficient := FJsonSerializer.ReadFloat ClothJson "DragCoefficient" 0.5
    LiftCoefficient := FJsonSerializer.ReadFloat ClothJson "LiftCoefficient" 0.3
    StretchStiffness := FJsonSerializer.ReadFloat ClothJson "StretchStiffness" 1.0
    BendStiffness := FJsonSerializer.ReadFloat ClothJson "BendStiffness" 0.5 }

/-- What one `LoadClothData` call produces: its return value, the mesh afterwards and the
messages logged. -/
structure LoadResult (F : Type) where
  ret : Bool
  mesh : USkeletalMesh F
  logs : List ClothLog

/-- Source: `USkeletalMesh::LoadClothData(FilePath)`. -/
def LoadClothData {F : Type} [OfScientific F] [Neg F] {Disk : Type} (api : FileApi F Disk)
    (D : Disk) (M : USkeletalMesh F) (FilePath : String) : LoadResult F :=
  match M.Data with
  | none => ⟨false, M, [ClothLog.LoadNoMeshData]⟩
  | some Data =>
    let LoadPath := if FilePath = "" then GetClothDataPath api M else FilePath
    if LoadPath = "" then ⟨false, M, []⟩
    else if !api.fileExists D LoadPath then ⟨false, M, []⟩
    else
      match api.LoadJsonFromFile D LoadPath with
      | none => ⟨false, M, [ClothLog.LoadCouldNotRead LoadPath]⟩
      | some Root =>
        if FJsonSerializer.ReadString Root "Type" ≠ some "ClothAssetData" then
          ⟨false, M, [ClothLog.LoadInvalidFileType]⟩
        else
          let ClothAssets : List (FClothAssetData F) :=
            match FJsonSerializer.ReadArray Root "ClothAssets" with
            | some ClothArray => ClothArray.map LoadClothJson
            | none => []
          ⟨true, { Data := some { Data with ClothAssets := ClothAssets } },
            [ClothLog.LoadDone LoadPath ClothAssets.length]⟩

end USkeletalMesh

/-- The path `SaveClothData` and `LoadClothData` work on: the argument, or the derived
companion path when the argument is empty (`FilePath.empty() ? GetClothDataPath() : FilePath`). -/
def USkeletalMesh.ResolvedPath {F : Type} {Disk : Type} (api : FileApi F Disk)
    (M : USkeletalMesh F) (FilePath : String) : String :=
  if FilePath = "" then USkeletalMesh.GetClothDataPath api M else FilePath

/-! ## Concrete backends and states, used to instantiate the theorems -/

/-- A backend over `Int` scalars that answers every call with the given constants and whose
instances report the particle buffer `particles`. -/
def constBackend (factory solver : Ptr) (begun : Bool) (chunks : Int) (fabric cloth : Ptr)
    (particles : List (PxVec4 Int)) : NvBackend Int :=
  { NvClothCreateFactoryCPU := factory
    createSolver := fun _ => solver
    beginSimulation := fun _ _ => begun
    getSimulationChunkCount := fun _ => chunks
    normalize := fun v => v
    NvClothCookFabricFromMesh := fun _ _ _ => fabric
    createCloth := fun _ _ _ => cloth
    getCurrentParticles := fun _ i => particles.getD i ⟨0, 0, 0, 0⟩
    getNumParticles := fun _ => particles.length
    getNumSpheres := fun _ => 0
    getNumCapsules := fun _ => 0 }

/-- A backend on which everything succeeds: factory `1`, solver `2`, fabric `3`, cloth `7`,
three chunks per pass. -/
def okBackend : NvBackend Int :=
  constBackend (some 1) (some 2) true 3 (some 3) (some 7) []

/-- A backend whose factory is created (handle `1`) but whose solver creation fails. -/
def noSolverBackend : NvBackend Int :=
  constBackend (some 1) none true 3 (some 3) (some 7) []

/-- The system after a successful `Initialize` on `okBackend`. -/
def sysInitialized : FClothSimulationSystem :=
  (FClothSimulationSystem.Initialize okBackend false FClothSimulationSystem.ctor).sys

/-- The initialized system after `RegisterCloth(7)`. -/
def sysWithCloth7 : FClothSimulationSystem :=
  (FClothSimulationSystem.RegisterCloth (F := Int) sysInitialized (some 7)).1

/-- The particle buffer of a unit triangle with every inverse mass `1`. -/
def triangleParticles : List (PxVec4 Int) :=
  [⟨0, 0, 0, 1⟩, ⟨1, 0, 0, 1⟩, ⟨0, 1, 0, 1⟩]

/-- The vertices of a unit triangle. -/
def triangleVertices : List (FVector Int) :=
  [⟨0, 0, 0⟩, ⟨1, 0, 0⟩, ⟨0, 1, 0⟩]

/-- A backend on which everything succeeds for the unit triangle (factory `1`, solver `2`,
fabric `3`, cloth `7`; instance creation fails for any other particle buffer) and whose
instance reports the particles it was created with. -/
def triangleBackend : NvBackend Int :=
  { constBackend (some 1) (some 2) true 3 (some 3) (some 7) triangleParticles with
    createCloth := fun _ P _ => if P = triangleParticles then some 7 else none }

/-- A backend on which fabric cooking succeeds (fabric `3`) and instance creation fails. -/
def noClothBackend : NvBackend Int :=
  constBackend (some 1) (some 2) true 3 (some 3) none []

/-- A configuration with pairwise different field values. -/
def sampleConfig : FClothConfig Int :=
  { Gravity := ⟨0, 0, -980⟩
    Damping := ⟨1, 2, 3⟩
    SolverFrequency := 120
    WindVelocity := ⟨4, 5, 6⟩
    DragCoefficient := 7
    LiftCoefficient := 8
    Friction := 9
    SelfCollisionDistance := 10
    SelfCollisionStiffness := 11
    TetherConstraintScale := 12
    TetherConstraintStiffness := 13
    LinearInertia := ⟨14, 15, 16⟩
    AngularInertia := ⟨17, 18, 19⟩
    CentrifugalInertia := ⟨20, 21, 22⟩ }

/-- A component that holds no cloth, with `sampleConfig` as its configuration. -/
def compEmpty : UClothComponent Int :=
  { Fabric := none
    Cloth := none
    InitialPositions := []
    InitialInvMasses := []
    bSimulationEnabled := true
    ClothConfig := sampleConfig
    CollisionSpheres := []
    CollisionRadii := []
    CollisionCapsuleIndices := []
    CachedTranslation := ⟨0, 0, 0⟩
    CachedRotation := ⟨0, 0, 0, 1⟩
    bClothInitialized := false }

/-- The empty component in a world whose cloth system is initialized. -/
def sceneEmpty : Scene Int :=
  { Comp := compEmpty, World := some { ClothSimulationSystem := some sysInitialized } }

/-- The scene after a successful `CreateClothFromMesh` of the unit triangle. -/
def sceneCreated : Scene Int :=
  (UClothComponent.CreateClothFromMesh triangleBackend sceneEmpty triangleVertices [0, 1, 2]
    []).st

/-- The created scene after `AddCollisionSphere((5, 5, 5), 2)`: a live, registered instance
with one collision sphere. -/
def sceneLive : Scene Int :=
  { sceneCreated with
    Comp := (UClothComponent.AddCollisionSphere sceneCreated.Comp ⟨5, 5, 5⟩ 2).1 }

/-- A file system kept as a list of files, newest first: a path with the document the file
parses to, or with `none` for a file that is no parsable document.  Saving always succeeds;
`replace_extension` is stood in for by appending the extension. -/
def listApi : FileApi ℚ (List (String × Option (JSON ℚ))) :=
  { fileExists := fun D path => (D.lookup path).isSome
    LoadJsonFromFile := fun D path =>
      match D.lookup path with
      | some (some Root) => some Root
      | _ => none
    SaveJsonToFile := fun D Root path => (true, (path, some Root) :: D)
    replace_extension := fun path ext => path ++ ext }

/-- Two section records with different values in every field. -/
def sampleClothAssets : List (FClothAssetData ℚ) :=
  [ { SectionIndex := 0
      ClothVertexIndices := [0, 1, 2, 4294967295]
      FixedVertexIndices := [0]
      Gravity := ⟨0, 0, -980⟩
      Damping := ⟨1, 2, 3⟩
      SolverFrequency := 60
      WindVelocity := ⟨4, 5, 6⟩
      DragCoefficient := 7
      LiftCoefficient := 8
      StretchStiffness := 9
      BendStiffness := 10 },
    { SectionIndex := 3
      ClothVertexIndices := [7, 8]
      FixedVertexIndices := []
      Gravity := ⟨1, 1, 1⟩
      Damping := ⟨2, 2, 2⟩
      SolverFrequency := 240
      WindVelocity := ⟨3, 3, 3⟩
      DragCoefficient := 4
      LiftCoefficient := 5
      StretchStiffness := 6
      BendStiffness := 7 } ]

/-- A mesh loaded from `hero.fbx` that holds the two sample records. -/
def sampleMesh : USkeletalMesh ℚ :=
  { Data := some { PathFileName := "hero.fbx", ClothAssets := sampleClothAssets } }

/-- A document whose type tag is not the expected one. -/
def wrongTypeRoot : JSON ℚ :=
  JSON.Object [("Type", JSON.Str "PhysicsAsset"), ("ClothAssets", JSON.Array [])]

/-! ## Lemmas on the `TArray` helpers -/

theorem TArray.Find_eq_none_iff {α : Type} [DecidableEq α] (xs : List α) (x : α) :
    TArray.Find xs x = none ↔ x ∉ xs := by
  induction xs with
  | nil => simp [TArray.Find]
  | cons a as ih =>
    unfold TArray.Find
    by_cases h : a = x
    · simp [h]
    · have hx : ¬ x = a := fun e => h e.symm
      cases hf : TArray.Find as x with
      | none => simp [h, hx, ih.mp hf]
      | some i =>
        have : x ∈ as := by
          by_contra hn
          rw [ih.mpr hn] at hf
          cases hf
        simp [h, this]

theorem TArray.RemoveAt_nodup {α : Type} (xs : List α) (i : Nat) (h : xs.Nodup) :
    (TArray.RemoveAt xs i).Nodup :=
  List.Nodup.sublist (List.eraseIdx_sublist xs i) h

theorem TArray.RemoveAt_subset {α : Type} (xs : List α) (i : Nat) :
    TArray.RemoveAt xs i ⊆ xs :=
  (List.eraseIdx_sublist xs i).subset

/-! ## Case equations of the system methods -/

namespace FClothSimulationSystem

theorem Initialize_of_initialized {F : Type} (B : NvBackend F) (G : Bool)
    (s : FClothSimulationSystem) (hb : s.bInitialized = true) :
    Initialize B G s = { ret := true, sys := s, GNvClothInitialized := G, calls := [] } := by
  simp [Initialize, hb]

theorem Initialize_no_factory {F : Type} (B : NvBackend F) (G : Bool)
    (s : FClothSimulationSystem) (hb : s.bInitialized = false)
    (hf : B.NvClothCreateFactoryCPU = none) :
    Initialize B G s =
      { ret := false
        sys := { s with Factory := none }
        GNvClothInitialized := true
        calls := (if G then [] else [NvCall.InitializeNvCloth])
          ++ [NvCall.NvClothCreateFactoryCPU none] } := by
  cases G <;> simp [Initialize, hb, hf]

theorem Initialize_no_solver {F : Type} (B : NvBackend F) (G : Bool)
    (s : FClothSimulationSystem) (hb : s.bInitialized = false) (f : Nat)
    (hf : B.NvClothCreateFactoryCPU = some f) (hsv : B.createSolver f = none) :
    Initialize B G s =
      { ret := false
        sys := { s with Factory := none, Solver := none }
        GNvClothInitialized := true
        calls := (if G then [] else [NvCall.InitializeNvCloth])
          ++ [NvCall.NvClothCreateFactoryCPU (some f), NvCall.createSolver f none,
            NvCall.NvClothDestroyFactory f] } := by
  cases G <;> simp [Initialize, hb, hf, hsv]

theorem Initialize_ok {F : Type} (B : NvBackend F) (G : Bool)
    (s : FClothSimulationSystem) (hb : s.bInitialized = false) (f sv : Nat)
    (hf : B.NvClothCreateFactoryCPU = some f) (hsv : B.createSolver f = some sv) :
    Initialize B G s =
      { ret := true
        sys := { s with Factory := some f, Solver := some sv, bInitialized := true }
        GNvClothInitialized := true
        calls := (if G then [] else [NvCall.InitializeNvCloth])
          ++ [NvCall.NvClothCreateFactoryCPU (some f), NvCall.createSolver f (some sv)] } := by
  cases G <;> simp [Initialize, hb, hf, hsv]

theorem Shutdown_of_uninitialized {F : Type} (s : FClothSimulationSystem)
    (hb : s.bInitialized = false) : Shutdown (F := F) s = (s, []) := by
  simp [Shutdown, hb]

theorem Shutdown_of_initialized {F : Type} (s : FClothSimulationSystem)
    (hb : s.bInitialized = true) :
    Shutdown (F := F) s =
      (ctor, (s.RegisteredCloths.map (ShutdownLoopBody s.Solver)).flatten
        ++ (match s.Solver with
            | some sv => [NvCall.deleteSolver sv]
            | none => [])
        ++ (match s.Factory with
            | some f => [NvCall.NvClothDestroyFactory f]
            | none => [])) := by
  simp [Shutdown, hb, ctor]

theorem RegisterCloth_new {F : Type} (s : FClothSimulationSystem) (sv c : Nat)
    (hb : s.bInitialized = true) (hs : s.Solver = some sv)
    (hn : some c ∉ s.RegisteredCloths) :
    RegisterCloth (F := F) s (some c) =
      ({ s with RegisteredCloths := s.RegisteredCloths ++ [some c] }, [NvCall.addCloth sv c]) := by
  have hf := (TArray.Find_eq_none_iff s.RegisteredCloths (some c)).mpr hn
  simp [RegisterCloth, hb, hs, hf]

theorem RegisterCloth_old {F : Type} (s : FClothSimulationSystem) (c : Nat)
    (hm : some c ∈ s.RegisteredCloths) :
    RegisterCloth (F := F) s (some c) = (s, []) := by
  unfold RegisterCloth
  cases hf : TArray.Find s.RegisteredCloths (some c) with
  | none => exact absurd hm ((TArray.Find_eq_none_iff _ _).mp hf)
  | some i =>
    cases s.bInitialized <;> cases s.Solver <;> simp

theorem RegisterCloth_skip {F : Type} (s : FClothSimulationSystem) (Cloth : Ptr)
    (h : s.bInitialized = false ∨ s.Solver = none ∨ Cloth = none) :
    RegisterCloth (F := F) s Cloth = (s, []) := by
  unfold RegisterCloth
  rcases h with h | h | h
  · simp [h]
  · cases s.bInitialized <;> simp [h]
  · cases s.bInitialized <;> cases s.Solver <;> simp [h]

theorem UnregisterCloth_absent {F : Type} (s : FClothSimulationSystem) (Cloth : Ptr)
    (hn : Cloth ∉ s.RegisteredCloths) :
    UnregisterCloth (F := F) s Cloth = (s, []) := by
  have hf := (TArray.Find_eq_none_iff s.RegisteredCloths Cloth).mpr hn
  unfold UnregisterCloth
  cases s.Solver <;> cases Cloth <;> simp_all

theorem UnregisterCloth_skip {F : Type} (s : FClothSimulationSystem) (Cloth : Ptr)
    (h : s.Solver = none ∨ Cloth = none) :
    UnregisterCloth (F := F) s Cloth = (s, []) := by
  unfold UnregisterCloth
  rcases h with h | h
  · simp [h]
  · cases s.Solver <;> simp [h]

theorem UnregisterCloth_present {F : Type} (s : FClothSimulationSystem) (sv c : Nat)
    (hs : s.Solver = some sv) (hm : some c ∈ s.RegisteredCloths) :
    ∃ Index, TArray.Find s.RegisteredCloths (some c) = some Index ∧
      UnregisterCloth (F := F) s (some c) =
        ({ s with RegisteredCloths := TArray.RemoveAt s.RegisteredCloths Index },
          [NvCall.removeCloth sv c]) := by
  cases hf : TArray.Find s.RegisteredCloths (some c) with
  | none => exact absurd hm ((TArray.Find_eq_none_iff _ _).mp hf)
  | some i => exact ⟨i, rfl, by simp [UnregisterCloth, hs, hf]⟩

end FClothSimulationSystem

/-! ## The system invariant holds in every reachable state -/

theorem SysInv.ctor : SysInv FClothSimulationSystem.ctor :=
  ⟨by simp [FClothSimulationSystem.ctor], by simp [FClothSimulationSystem.ctor],
    by simp [FClothSimulationSystem.ctor], by simp [FClothSimulationSystem.ctor]⟩

theorem SysInv.Initialize {F : Type} (B : NvBackend F) (G : Bool) {s : FClothSimulationSystem}
    (h : SysInv s) : SysInv (FClothSimulationSystem.Initialize B G s).sys := by
  cases hb : s.bInitialized with
  | true => rw [FClothSimulationSystem.Initialize_of_initialized B G s hb]; exact h
  | false =>
    obtain ⟨hF, hS, hR⟩ := h.uninit hb
    cases hf : B.NvClothCreateFactoryCPU with
    | none =>
      rw [FClothSimulationSystem.Initialize_no_factory B G s hb hf]
      refine ⟨?_, ?_, ?_, ?_⟩ <;> simp [hb, hS, hR]
    | some f =>
      cases hsv : B.createSolver f with
      | none =>
        rw [FClothSimulationSystem.Initialize_no_solver B G s hb f hf hsv]
        refine ⟨?_, ?_, ?_, ?_⟩ <;> simp [hb, hR]
      | some sv =>
        rw [FClothSimulationSystem.Initialize_ok B G s hb f sv hf hsv]
        refine ⟨?_, ?_, ?_, ?_⟩ <;> simp [hR]

theorem SysInv.Shutdown (F : Type) {s : FClothSimulationSystem} (h : SysInv s) :
    SysInv (FClothSimulationSystem.Shutdown (F := F) s).1 := by
  cases hb : s.bInitialized with
  | false => rw [FClothSimulationSystem.Shutdown_of_uninitialized s hb]; exact h
  | true => rw [FClothSimulationSystem.Shutdown_of_initialized s hb]; exact SysInv.ctor

theorem SysInv.RegisterCloth (F : Type) (Cloth : Ptr) {s : FClothSimulationSystem}
    (h : SysInv s) : SysInv (FClothSimulationSystem.RegisterCloth (F := F) s Cloth).1 := by
  cases hb : s.bInitialized with
  | false => rw [FClothSimulationSystem.RegisterCloth_skip s Cloth (Or.inl hb)]; exact h
  | true =>
    cases hs : s.Solver with
    | none => rw [FClothSimulationSystem.RegisterCloth_skip s Cloth (Or.inr (Or.inl hs))]; exact h
    | some sv =>
      cases Cloth with
      | none => rw [FClothSimulationSystem.RegisterCloth_skip s none (Or.inr (Or.inr rfl))]; exact h
      | some c =>
        by_cases hm : some c ∈ s.RegisteredCloths
        · rw [FClothSimulationSystem.RegisterCloth_old s c hm]; exact h
        · rw [FClothSimulationSystem.RegisterCloth_new s sv c hb hs hm]
          refine ⟨?_, ?_, ?_, ?_⟩
          · simp [hb]
          · intro _
            exact h.init hb
          · show (s.RegisteredCloths ++ [some c]).Nodup
            rw [List.nodup_append]
            refine ⟨h.nodup, by simp, ?_⟩
            intro x hx hx2
            simp at hx2
            exact hm (hx2 ▸ hx)
          · simp [h.nonnull]

theorem SysInv.UnregisterCloth (F : Type) (Cloth : Ptr) {s : FClothSimulationSystem}
    (h : SysInv s) : SysInv (FClothSimulationSystem.UnregisterCloth (F := F) s Cloth).1 := by
  cases hs : s.Solver with
  | none => rw [FClothSimulationSystem.UnregisterCloth_skip s Cloth (Or.inl hs)]; exact h
  | some sv =>
    cases Cloth with
    | none => rw [FClothSimulationSystem.UnregisterCloth_skip s none (Or.inr rfl)]; exact h
    | some c =>
      by_cases hm : some c ∈ s.RegisteredCloths
      · obtain ⟨i, _, he⟩ := FClothSimulationSystem.UnregisterCloth_present (F := F) s sv c hs hm
        rw [he]
        have hb : s.bInitialized = true := by
          cases hb : s.bInitialized with
          | true => rfl
          | false => have := (h.uninit hb).2.1; rw [hs] at this; cases this
        refine ⟨?_, ?_, ?_, ?_⟩
        · simp [hb]
        · intro _
          exact h.init hb
        · exact TArray.RemoveAt_nodup _ _ h.nodup
        · exact fun hm => h.nonnull (TArray.RemoveAt_subset _ _ hm)
      · rw [FClothSimulationSystem.UnregisterCloth_absent s _ hm]; exact h

theorem SysReachable.inv {s : FClothSimulationSystem} (h : SysReachable s) : SysInv s := by
  induction h with
  | ctor => exact SysInv.ctor
  | Initialize B G _ ih => exact SysInv.Initialize B G ih
  | Shutdown F _ ih => exact SysInv.Shutdown F ih
  | RegisterCloth F c _ ih => exact SysInv.RegisterCloth F c ih
  | UnregisterCloth F c _ ih => exact SysInv.UnregisterCloth F c ih

theorem List.count_eq_one_of_nodup_mem {α : Type} [BEq α] [LawfulBEq α] {a : α} {l : List α}
    (hd : l.Nodup) (hm : a ∈ l) : l.count a = 1 := by
  induction l with
  | nil => cases hm
  | cons x xs ih =>
    rw [List.nodup_cons] at hd
    rw [List.count_cons]
    rcases List.mem_cons.mp hm with rfl | hx
    · simp [List.count_eq_zero.mpr hd.1]
    · have hne : ¬ x = a := fun e => hd.1 (e ▸ hx)
      simp [ih hd.2 hx, hne]

/-! ## Lemmas on the `Shutdown` loop -/

theorem exists_map_some_of_none_not_mem {α : Type} (xs : List (Option α)) (h : none ∉ xs) :
    ∃ cs : List α, xs = cs.map some := by
  induction xs with
  | nil => exact ⟨[], rfl⟩
  | cons a as ih =>
    have h1 : ¬ none = a := fun e => h (by simp [← e])
    have h2 : none ∉ as := fun m => h (List.mem_cons_of_mem _ m)
    obtain ⟨cs, hcs⟩ := ih h2
    cases a with
    | none => exact absurd rfl h1
    | some c => exact ⟨c :: cs, by simp [hcs]⟩

theorem FClothSimulationSystem.ShutdownLoop_calls {F : Type} (sv : Nat) (cs : List Nat) :
    ((cs.map some).map (FClothSimulationSystem.ShutdownLoopBody (F := F) (some sv))).flatten
      = cs.map (NvCall.removeCloth sv) := by
  induction cs with
  | nil => rfl
  | cons c cs ih =>
    simp only [List.map_cons, List.flatten_cons, ih]
    rfl

theorem sysInitialized_reachable : SysReachable sysInitialized :=
  SysReachable.Initialize okBackend false SysReachable.ctor

theorem sysWithCloth7_reachable : SysReachable sysWithCloth7 :=
  SysReachable.RegisterCloth Int (some 7) sysInitialized_reachable

/-! ## `FClothSimulationSystem::Initialize` -/

/-- C3: in every reachable uninitialized system, when factory creation or solver creation
fails, `Initialize` returns false and leaves the object as it was, fully uninitialized:
`IsInitialized()` false, factory and solver handles null; a factory acquired before the solver
failure is destroyed by the last call issued.  `Initialize` returns true only with both
handles non-null and `IsInitialized()` true. -/
theorem Initialize_failure_leaves_uninitialized {F : Type} (B : NvBackend F) (G : Bool)
    (s : FClothSimulationSystem) (hs : SysReachable s) (hu : s.IsInitialized = false) :
    ((B.NvClothCreateFactoryCPU = none ∨
        ∃ f, B.NvClothCreateFactoryCPU = some f ∧ B.createSolver f = none) →
      (FClothSimulationSystem.Initialize B G s).ret = false ∧
      (FClothSimulationSystem.Initialize B G s).sys = s ∧
      (FClothSimulationSystem.Initialize B G s).sys.IsInitialized = false ∧
      (FClothSimulationSystem.Initialize B G s).sys.GetFactory = none ∧
      (FClothSimulationSystem.Initialize B G s).sys.GetSolver = none ∧
      ∀ f, B.NvClothCreateFactoryCPU = some f →
        (FClothSimulationSystem.Initialize B G s).calls =
          (if G then [] else [NvCall.InitializeNvCloth]) ++
            [NvCall.NvClothCreateFactoryCPU (some f), NvCall.createSolver f none,
              NvCall.NvClothDestroyFactory f]) ∧
    ((FClothSimulationSystem.Initialize B G s).ret = true →
      (FClothSimulationSystem.Initialize B G s).sys.GetFactory ≠ none ∧
      (FClothSimulationSystem.Initialize B G s).sys.GetSolver ≠ none ∧
      (FClothSimulationSystem.Initialize B G s).sys.IsInitialized = true) := by
  have hb : s.bInitialized = false := hu
  obtain ⟨hF, hS, hR⟩ := hs.inv.uninit hb
  have hs_eq : s = FClothSimulationSystem.ctor := by
    cases s
    simp_all [FClothSimulationSystem.ctor]
  constructor
  · rintro (hf | ⟨f, hf, hsv⟩)
    · rw [FClothSimulationSystem.Initialize_no_factory B G s hb hf]
      refine ⟨rfl, ?_, ?_, rfl, ?_, ?_⟩
      · subst hs_eq; rfl
      · exact hb
      · exact hS
      · intro f hf2
        rw [hf] at hf2
        cases hf2
    · rw [FClothSimulationSystem.Initialize_no_solver B G s hb f hf hsv]
      refine ⟨rfl, ?_, ?_, rfl, rfl, ?_⟩
      · subst hs_eq; rfl
      · exact hb
      · intro f2 hf2
        rw [hf] at hf2
        cases hf2
        rfl
  · cases hf : B.NvClothCreateFactoryCPU with
    | none =>
      rw [FClothSimulationSystem.Initialize_no_factory B G s hb hf]
      intro h
      cases h
    | some f =>
      cases hsv : B.createSolver f with
      | none =>
        rw [FClothSimulationSystem.Initialize_no_solver B G s hb f hf hsv]
        intro h
        cases h
      | some sv =>
        rw [FClothSimulationSystem.Initialize_ok B G s hb f sv hf hsv]
        intro _
        simp [FClothSimulationSystem.GetFactory, FClothSimulationSystem.GetSolver,
          FClothSimulationSystem.IsInitialized]

/-- Witness for C3: a freshly constructed system on a backend whose solver creation fails. -/
theorem Initialize_failure_leaves_uninitialized_witness :
    (FClothSimulationSystem.Initialize noSolverBackend false FClothSimulationSystem.ctor).ret
        = false ∧
    (FClothSimulationSystem.Initialize noSolverBackend false FClothSimulationSystem.ctor).sys
        = FClothSimulationSystem.ctor ∧
    (FClothSimulationSystem.Initialize noSolverBackend false FClothSimulationSystem.ctor).calls
        = [NvCall.InitializeNvCloth, NvCall.NvClothCreateFactoryCPU (some 1),
            NvCall.createSolver 1 none, NvCall.NvClothDestroyFactory 1] := by
  have h := (Initialize_failure_leaves_uninitialized noSolverBackend false
    FClothSimulationSystem.ctor SysReachable.ctor rfl).1 (Or.inr ⟨1, rfl, rfl⟩)
  exact ⟨h.1, h.2.1, h.2.2.2.2.2 1 rfl⟩

/-! ## `RegisterCloth` / `UnregisterCloth` -/

/-- C4, as amended: in every reachable initialized system and for every non-null instance `c`,
after `RegisterCloth(c)` twice there is exactly one entry for `c`, and the second call changes
nothing and issues no call; the two calls together issue exactly one solver add when `c` was
not registered before them and none when it already was.  `UnregisterCloth(c)` with `c` not in
the registered set changes nothing and issues no solver remove. -/
theorem RegisterCloth_twice_one_entry {F : Type} (s : FClothSimulationSystem)
    (hs : SysReachable s) (hi : s.IsInitialized = true) (c : Nat) :
    ((FClothSimulationSystem.RegisterCloth (F := F)
        (FClothSimulationSystem.RegisterCloth (F := F) s (some c)).1
        (some c)).1.RegisteredCloths.count (some c) = 1) ∧
    (FClothSimulationSystem.RegisterCloth (F := F)
        (FClothSimulationSystem.RegisterCloth (F := F) s (some c)).1 (some c)
      = ((FClothSimulationSystem.RegisterCloth (F := F) s (some c)).1, [])) ∧
    (some c ∉ s.RegisteredCloths → ∃ sv, s.Solver = some sv ∧
      (FClothSimulationSystem.RegisterCloth (F := F) s (some c)).2 ++
        (FClothSimulationSystem.RegisterCloth (F := F)
          (FClothSimulationSystem.RegisterCloth (F := F) s (some c)).1 (some c)).2
        = [NvCall.addCloth sv c]) ∧
    (some c ∈ s.RegisteredCloths →
      (FClothSimulationSystem.RegisterCloth (F := F) s (some c)).2 ++
        (FClothSimulationSystem.RegisterCloth (F := F)
          (FClothSimulationSystem.RegisterCloth (F := F) s (some c)).1 (some c)).2
        = []) ∧
    (some c ∉ s.RegisteredCloths →
      FClothSimulationSystem.UnregisterCloth (F := F) s (some c) = (s, [])) := by
  have hb : s.bInitialized = true := hi
  have hinv := hs.inv
  obtain ⟨sv, hsv⟩ : ∃ sv, s.Solver = some sv := by
    have := (hinv.init hb).2
    cases h : s.Solver with
    | none => simp [h] at this
    | some sv => exact ⟨sv, rfl⟩
  by_cases hm : some c ∈ s.RegisteredCloths
  · have e1 := FClothSimulationSystem.RegisterCloth_old (F := F) s c hm
    rw [e1]
    simp only [e1]
    refine ⟨List.count_eq_one_of_nodup_mem hinv.nodup hm, trivial, fun h => absurd hm h,
      fun _ => rfl, fun h => absurd hm h⟩
  · have e1 := FClothSimulationSystem.RegisterCloth_new (F := F) s sv c hb hsv hm
    have hm2 : some c ∈ (FClothSimulationSystem.RegisterCloth (F := F) s (some c)).1.RegisteredCloths := by
      rw [e1]; simp
    have e2 := FClothSimulationSystem.RegisterCloth_old (F := F) _ c hm2
    have hnd := (SysInv.RegisterCloth F (some c) hinv).nodup
    rw [e2]
    refine ⟨List.count_eq_one_of_nodup_mem hnd hm2, rfl, fun _ => ⟨sv, hsv, ?_⟩,
      fun h => absurd h hm, fun _ => FClothSimulationSystem.UnregisterCloth_absent s _ hm⟩
    rw [e1]
    rfl

/-- Witness for C4: instance `7` registered twice with the freshly initialized system. -/
theorem RegisterCloth_twice_one_entry_witness :
    (FClothSimulationSystem.RegisterCloth (F := Int)
        (FClothSimulationSystem.RegisterCloth (F := Int) sysInitialized (some 7)).1
        (some 7)).1.RegisteredCloths = [some 7] ∧
    (FClothSimulationSystem.RegisterCloth (F := Int) sysInitialized (some 7)).2 ++
        (FClothSimulationSystem.RegisterCloth (F := Int)
          (FClothSimulationSystem.RegisterCloth (F := Int) sysInitialized (some 7)).1 (some 7)).2
      = [NvCall.addCloth 2 7] := by
  have h := RegisterCloth_twice_one_entry (F := Int) sysInitialized sysInitialized_reachable rfl 7
  obtain ⟨sv, hsv, hc⟩ := h.2.2.1 (by decide)
  have : sv = 2 := by
    have h2 : sysInitialized.Solver = some 2 := rfl
    rw [h2] at hsv
    exact (Option.some.inj hsv).symm
  subst this
  exact ⟨rfl, hc⟩

/-- C4 counterexample: `sysWithCloth7` is a reachable initialized system in which instance `7`
is registered; calling `RegisterCloth(7)` twice there issues no solver add at all (not exactly
one), while the set keeps its single entry. -/
theorem RegisterCloth_twice_no_add_counterexample :
    SysReachable sysWithCloth7 ∧ sysWithCloth7.IsInitialized = true ∧
    (FClothSimulationSystem.RegisterCloth (F := Int) sysWithCloth7 (some 7)).2 ++
        (FClothSimulationSystem.RegisterCloth (F := Int)
          (FClothSimulationSystem.RegisterCloth (F := Int) sysWithCloth7 (some 7)).1 (some 7)).2
      = [] ∧
    ¬ ∃ sv, (FClothSimulationSystem.RegisterCloth (F := Int) sysWithCloth7 (some 7)).2 ++
        (FClothSimulationSystem.RegisterCloth (F := Int)
          (FClothSimulationSystem.RegisterCloth (F := Int) sysWithCloth7 (some 7)).1 (some 7)).2
      = [NvCall.addCloth sv 7] := by
  refine ⟨sysWithCloth7_reachable, rfl, rfl, ?_⟩
  rintro ⟨sv, h⟩
  have h0 : (FClothSimulationSystem.RegisterCloth (F := Int) sysWithCloth7 (some 7)).2 ++
        (FClothSimulationSystem.RegisterCloth (F := Int)
          (FClothSimulationSystem.RegisterCloth (F := Int) sysWithCloth7 (some 7)).1 (some 7)).2
      = [] := rfl
  rw [h0] at h
  cases h

/-! ## `FClothSimulationSystem::Shutdown` -/

/-- C5: in every reachable initialized system `Shutdown` issues one solver remove per
registered instance, in order, then deletes the solver, then destroys the factory; afterwards
the registered set is empty, both handles are null and `IsInitialized()` is false.  A second
`Shutdown`, or `Shutdown` on the never-initialized system, changes nothing and issues no
call. -/
theorem Shutdown_removes_then_releases {F : Type} (s : FClothSimulationSystem)
    (hs : SysReachable s) (hi : s.IsInitialized = true) :
    (∃ (sv f : Nat) (cs : List Nat), s.Solver = some sv ∧ s.Factory = some f ∧ s.RegisteredCloths = cs.map some ∧
      (FClothSimulationSystem.Shutdown (F := F) s).2 =
        cs.map (NvCall.removeCloth sv) ++
          [NvCall.deleteSolver sv, NvCall.NvClothDestroyFactory f]) ∧
    (FClothSimulationSystem.Shutdown (F := F) s).1.RegisteredCloths = [] ∧
    (FClothSimulationSystem.Shutdown (F := F) s).1.GetSolver = none ∧
    (FClothSimulationSystem.Shutdown (F := F) s).1.GetFactory = none ∧
    (FClothSimulationSystem.Shutdown (F := F) s).1.IsInitialized = false ∧
    FClothSimulationSystem.Shutdown (F := F) (FClothSimulationSystem.Shutdown (F := F) s).1
      = ((FClothSimulationSystem.Shutdown (F := F) s).1, []) ∧
    FClothSimulationSystem.Shutdown (F := F) FClothSimulationSystem.ctor
      = (FClothSimulationSystem.ctor, []) := by
  have hb : s.bInitialized = true := hi
  have hinv := hs.inv
  obtain ⟨cs, hcs⟩ := exists_map_some_of_none_not_mem _ hinv.nonnull
  have e := FClothSimulationSystem.Shutdown_of_initialized (F := F) s hb
  have hFS := hinv.init hb
  cases hf : s.Factory with
  | none => simp [hf] at hFS
  | some f =>
    cases hsv : s.Solver with
    | none => simp [hsv] at hFS
    | some sv =>
      rw [hsv, hf, hcs, FClothSimulationSystem.ShutdownLoop_calls] at e
      rw [e]
      refine ⟨⟨sv, f, cs, rfl, rfl, hcs, by simp⟩, rfl, rfl, rfl, rfl, rfl, rfl⟩

/-- Witness for C5: shutting down the initialized system that has instance `7` registered. -/
theorem Shutdown_removes_then_releases_witness :
    FClothSimulationSystem.Shutdown (F := Int) sysWithCloth7 =
      (FClothSimulationSystem.ctor,
        [NvCall.removeCloth 2 7, NvCall.deleteSolver 2, NvCall.NvClothDestroyFactory 1]) ∧
    FClothSimulationSystem.Shutdown (F := Int)
        (FClothSimulationSystem.Shutdown (F := Int) sysWithCloth7).1 =
      (FClothSimulationSystem.ctor, []) := by
  have h := Shutdown_removes_then_releases (F := Int) sysWithCloth7 sysWithCloth7_reachable rfl
  exact ⟨rfl, h.2.2.2.2.2.1⟩

/-! ## `FClothSimulationSystem::Simulate` -/

/-- C6: in every reachable system state and for every `DeltaTime`, one `Simulate` call issues
no backend call when the system is uninitialized or nothing is registered; otherwise its
first call is `beginSimulation(DeltaTime)`, and when that reports true the calls are exactly
`beginSimulation`, `simulateChunk(0)`, ..., `simulateChunk(n-1)`, `endSimulation` with `n` the
chunk count the solver reports (when it reports false, `beginSimulation` is the only call). -/
theorem Simulate_call_sequence {F : Type} (B : NvBackend F) (s : FClothSimulationSystem)
    (hs : SysReachable s) (DeltaTime : F) :
    ((s.IsInitialized = false ∨ s.RegisteredCloths = []) →
      FClothSimulationSystem.Simulate B s DeltaTime = []) ∧
    (s.IsInitialized = true → s.RegisteredCloths ≠ [] →
      ∃ sv, s.Solver = some sv ∧
        (FClothSimulationSystem.Simulate B s DeltaTime).head? =
          some (NvCall.beginSimulation sv DeltaTime (B.beginSimulation sv DeltaTime)) ∧
        (B.beginSimulation sv DeltaTime = true →
          FClothSimulationSystem.Simulate B s DeltaTime =
            [NvCall.beginSimulation sv DeltaTime true] ++
              (List.range (B.getSimulationChunkCount sv).toNat).map
                (fun i => NvCall.simulateChunk sv i) ++
              [NvCall.endSimulation sv]) ∧
        (B.beginSimulation sv DeltaTime = false →
          FClothSimulationSystem.Simulate B s DeltaTime =
            [NvCall.beginSimulation sv DeltaTime false])) := by
  constructor
  · rintro (h | h)
    · have hb : s.bInitialized = false := h
      simp [FClothSimulationSystem.Simulate, hb]
    · unfold FClothSimulationSystem.Simulate
      cases s.bInitialized <;> cases s.Solver <;> simp [h]
  · intro hi hne
    have hb : s.bInitialized = true := hi
    have hFS := hs.inv.init hb
    cases hsv : s.Solver with
    | none => simp [hsv] at hFS
    | some sv =>
      have hlen : ¬ s.RegisteredCloths.length = 0 := by
        intro h0
        exact hne (List.length_eq_zero.mp h0)
      refine ⟨sv, rfl, ?_, ?_, ?_⟩
      · cases hbeg : B.beginSimulation sv DeltaTime <;>
          simp [FClothSimulationSystem.Simulate, hb, hsv, hlen, hbeg]
      · intro hbeg
        simp [FClothSimulationSystem.Simulate, hb, hsv, hlen, hbeg]
      · intro hbeg
        simp [FClothSimulationSystem.Simulate, hb, hsv, hlen, hbeg]

/-- Witness for C6: one pass over the system holding instance `7`, the solver reporting three
chunks. -/
theorem Simulate_call_sequence_witness :
    FClothSimulationSystem.Simulate okBackend sysWithCloth7 (16 : Int) =
      [NvCall.beginSimulation 2 16 true, NvCall.simulateChunk 2 0, NvCall.simulateChunk 2 1,
        NvCall.simulateChunk 2 2, NvCall.endSimulation 2] := by
  obtain ⟨sv, hsv, _, h, _⟩ :=
    (Simulate_call_sequence okBackend sysWithCloth7 sysWithCloth7_reachable (16 : Int)).2
      rfl (by decide)
  have : sv = 2 := by
    have h2 : sysWithCloth7.Solver = some 2 := rfl
    rw [h2] at hsv
    exact (Option.some.inj hsv).symm
  subst this
  exact (h rfl).trans rfl

/-! ## Case equations of `DestroyCloth` and `CreateClothFromMesh` -/

namespace UClothComponent

theorem DestroyCloth_Cloth {F : Type} (st : Scene F) : (DestroyCloth st).1.Comp.Cloth = none :=
  rfl

theorem DestroyCloth_Fabric {F : Type} (st : Scene F) : (DestroyCloth st).1.Comp.Fabric = none :=
  rfl

theorem DestroyCloth_ClothConfig {F : Type} (st : Scene F) :
    (DestroyCloth st).1.Comp.ClothConfig = st.Comp.ClothConfig :=
  rfl

theorem CreateClothFromMesh_precondition {F : Type} [One F] (B : NvBackend F) (st : Scene F)
    (Vertices : List (FVector F)) (Indices : List Nat) (InvMasses : List F)
    (h : Vertices.length < 3 ∨ Indices.length < 3 ∨ GetClothSystem (DestroyCloth st).1 = none ∨
      ∃ sys, GetClothSystem (DestroyCloth st).1 = some sys ∧
        (sys.IsInitialized = false ∨ sys.GetFactory = none)) :
    CreateClothFromMesh B st Vertices Indices InvMasses =
      ⟨false, (DestroyCloth st).1, (DestroyCloth st).2⟩ := by
  unfold CreateClothFromMesh
  by_cases hVI : Vertices.length < 3 ∨ Indices.length < 3
  · simp only [hVI, if_true]
  · simp only [hVI, if_false]
    rcases h with h | h | h | ⟨sys, hsys, h | h⟩
    · exact absurd (Or.inl h) hVI
    · exact absurd (Or.inr h) hVI
    · simp only [h]
    · simp [hsys, h]
    · simp only [hsys, h]
      cases sys.IsInitialized <;> simp

theorem CreateClothFromMesh_cook_null {F : Type} [One F] (B : NvBackend F) (st : Scene F)
    (Vertices : List (FVector F)) (Indices : List Nat) (InvMasses : List F)
    (hV : 3 ≤ Vertices.length) (hI : 3 ≤ Indices.length) (sys : FClothSimulationSystem)
    (hsys : GetClothSystem (DestroyCloth st).1 = some sys) (hinit : sys.IsInitialized = true)
    (fac : Nat) (hfac : sys.GetFactory = some fac)
    (hcook : B.NvClothCookFabricFromMesh fac
      (MeshDesc Vertices Indices (InvMassData Vertices InvMasses))
      (B.normalize (toPx st.Comp.ClothConfig.Gravity)) = none) :
    CreateClothFromMesh B st Vertices Indices InvMasses =
      ⟨false,
        { (DestroyCloth st).1 with
          Comp := { (DestroyCloth st).1.Comp with
            InitialPositions := Vertices, InitialInvMasses := InvMasses, Fabric := none } },
        (DestroyCloth st).2 ++
          [NvCall.NvClothCookFabricFromMesh fac
            (MeshDesc Vertices Indices (InvMassData Vertices InvMasses))
            (B.normalize (toPx st.Comp.ClothConfig.Gravity)) none]⟩ := by
  have hVI : ¬ (Vertices.length < 3 ∨ Indices.length < 3) := by omega
  unfold CreateClothFromMesh
  simp only [hVI, if_false, hsys, hinit, hfac, DestroyCloth_ClothConfig, hcook]
  rfl

theorem CreateClothFromMesh_create_null {F : Type} [One F] (B : NvBackend F) (st : Scene F)
    (Vertices : List (FVector F)) (Indices : List Nat) (InvMasses : List F)
    (hV : 3 ≤ Vertices.length) (hI : 3 ≤ Indices.length) (sys : FClothSimulationSystem)
    (hsys : GetClothSystem (DestroyCloth st).1 = some sys) (hinit : sys.IsInitialized = true)
    (fac : Nat) (hfac : sys.GetFactory = some fac) (fab : Nat)
    (hcook : B.NvClothCookFabricFromMesh fac
      (MeshDesc Vertices Indices (InvMassData Vertices InvMasses))
      (B.normalize (toPx st.Comp.ClothConfig.Gravity)) = some fab)
    (hcreate : B.createCloth fac (Particles Vertices (InvMassData Vertices InvMasses)) fab
      = none) :
    CreateClothFromMesh B st Vertices Indices InvMasses =
      ⟨false,
        { (DestroyCloth st).1 with
          Comp := { (DestroyCloth st).1.Comp with
            InitialPositions := Vertices, InitialInvMasses := InvMasses, Fabric := none,
            Cloth := none } },
        (DestroyCloth st).2 ++
          [NvCall.NvClothCookFabricFromMesh fac
            (MeshDesc Vertices Indices (InvMassData Vertices InvMasses))
            (B.normalize (toPx st.Comp.ClothConfig.Gravity)) (some fab),
           NvCall.createCloth fac (Particles Vertices (InvMassData Vertices InvMasses)) fab none,
           NvCall.decRefCount fab]⟩ := by
  have hVI : ¬ (Vertices.length < 3 ∨ Indices.length < 3) := by omega
  unfold CreateClothFromMesh
  simp only [hVI, if_false, hsys, hinit, hfac, DestroyCloth_ClothConfig, hcook, hcreate]
  rfl

theorem CreateClothFromMesh_ok {F : Type} [One F] (B : NvBackend F) (st : Scene F)
    (Vertices : List (FVector F)) (Indices : List Nat) (InvMasses : List F)
    (hV : 3 ≤ Vertices.length) (hI : 3 ≤ Indices.length) (sys : FClothSimulationSystem)
    (hsys : GetClothSystem (DestroyCloth st).1 = some sys) (hinit : sys.IsInitialized = true)
    (fac : Nat) (hfac : sys.GetFactory = some fac) (fab : Nat)
    (hcook : B.NvClothCookFabricFromMesh fac
      (MeshDesc Vertices Indices (InvMassData Vertices InvMasses))
      (B.normalize (toPx st.Comp.ClothConfig.Gravity)) = some fab)
    (c : Nat)
    (hcreate : B.createCloth fac (Particles Vertices (InvMassData Vertices InvMasses)) fab
      = some c) :
    CreateClothFromMesh B st Vertices Indices InvMasses =
      ⟨true,
        { Comp := { (DestroyCloth st).1.Comp with
            InitialPositions := Vertices, InitialInvMasses := InvMasses, Fabric := some fab,
            Cloth := some c, bClothInitialized := true }
          World := some { ClothSimulationSystem := some (sys.RegisterCloth (F := F) (some c)).1 } },
        (DestroyCloth st).2 ++
          [NvCall.NvClothCookFabricFromMesh fac
            (MeshDesc Vertices Indices (InvMassData Vertices InvMasses))
            (B.normalize (toPx st.Comp.ClothConfig.Gravity)) (some fab),
           NvCall.createCloth fac (Particles Vertices (InvMassData Vertices InvMasses)) fab
            (some c)] ++
          ApplyClothConfigCalls c st.Comp.ClothConfig ++
          (sys.RegisterCloth (F := F) (some c)).2⟩ := by
  have hVI : ¬ (Vertices.length < 3 ∨ Indices.length < 3) := by omega
  unfold CreateClothFromMesh
  simp only [hVI, if_false, hsys, hinit, hfac, DestroyCloth_ClothConfig, hcook, hcreate]
  rfl

/-- How a `CreateClothFromMesh` call can run: a precondition fails, or the system and factory
are there and cooking / instance creation each succeed or return null. -/
theorem CreateClothFromMesh_cases {F : Type} [One F] (B : NvBackend F) (st : Scene F)
    (Vertices : List (FVector F)) (Indices : List Nat) (InvMasses : List F) :
    (Vertices.length < 3 ∨ Indices.length < 3 ∨ GetClothSystem (DestroyCloth st).1 = none ∨
      ∃ sys, GetClothSystem (DestroyCloth st).1 = some sys ∧
        (sys.IsInitialized = false ∨ sys.GetFactory = none)) ∨
    (3 ≤ Vertices.length ∧ 3 ≤ Indices.length ∧
      ∃ sys fac, GetClothSystem (DestroyCloth st).1 = some sys ∧ sys.IsInitialized = true ∧
        sys.GetFactory = some fac ∧
        (B.NvClothCookFabricFromMesh fac
            (MeshDesc Vertices Indices (InvMassData Vertices InvMasses))
            (B.normalize (toPx st.Comp.ClothConfig.Gravity)) = none ∨
          ∃ fab, B.NvClothCookFabricFromMesh fac
              (MeshDesc Vertices Indices (InvMassData Vertices InvMasses))
              (B.normalize (toPx st.Comp.ClothConfig.Gravity)) = some fab ∧
            (B.createCloth fac (Particles Vertices (InvMassData Vertices InvMasses)) fab = none ∨
              ∃ c, B.createCloth fac (Particles Vertices (InvMassData Vertices InvMasses)) fab
                = some c))) := by
  by_cases hV : Vertices.length < 3
  · exact Or.inl (Or.inl hV)
  by_cases hI : Indices.length < 3
  · exact Or.inl (Or.inr (Or.inl hI))
  cases hsys : GetClothSystem (DestroyCloth st).1 with
  | none => exact Or.inl (Or.inr (Or.inr (Or.inl rfl)))
  | some sys =>
    cases hinit : sys.IsInitialized with
    | false => exact Or.inl (Or.inr (Or.inr (Or.inr ⟨sys, rfl, Or.inl hinit⟩)))
    | true =>
      cases hfac : sys.GetFactory with
      | none => exact Or.inl (Or.inr (Or.inr (Or.inr ⟨sys, rfl, Or.inr hfac⟩)))
      | some fac =>
        refine Or.inr ⟨by omega, by omega, sys, fac, rfl, hinit, hfac, ?_⟩
        cases hcook : B.NvClothCookFabricFromMesh fac
            (MeshDesc Vertices Indices (InvMassData Vertices InvMasses))
            (B.normalize (toPx st.Comp.ClothConfig.Gravity)) with
        | none => exact Or.inl rfl
        | some fab =>
          refine Or.inr ⟨fab, rfl, ?_⟩
          cases hcreate : B.createCloth fac
              (Particles Vertices (InvMassData Vertices InvMasses)) fab with
          | none => exact Or.inl rfl
          | some c => exact Or.inr ⟨c, rfl⟩

theorem InvMassData_length {F : Type} [One F] (Vertices : List (FVector F))
    (InvMasses : List F) : (InvMassData Vertices InvMasses).length = Vertices.length := by
  unfold InvMassData
  split
  · assumption
  · simp

theorem Particles_length {F : Type} [One F] (Vertices : List (FVector F))
    (InvMasses : List F) :
    (Particles Vertices (InvMassData Vertices InvMasses)).length = Vertices.length := by
  simp [Particles, InvMassData_length]

end UClothComponent

/-! ## `CreateClothFromMesh`: outcome -/

/-- C1: for every input with at least 3 vertices and 3 indices and every answer of the backend
to cooking and instance creation (an instance reporting as many particles as it was created
with), `CreateClothFromMesh` either returns true with `IsClothValid()` and
`GetNumParticles()` equal to the number of vertices, or returns false with `IsClothValid()`
false and the fabric pointer null, every fabric cooked during the call having been released by
exactly one `decRefCount` and no instance having been created. -/
theorem CreateClothFromMesh_success_or_clean_failure {F : Type} [One F] [DecidableEq F]
    (B : NvBackend F) (st : Scene F) (Vertices : List (FVector F)) (Indices : List Nat)
    (InvMasses : List F) (hV : 3 ≤ Vertices.length) (hI : 3 ≤ Indices.length)
    (hB : ∀ fac P fab c, B.createCloth fac P fab = some c → B.getNumParticles c = P.length) :
    ((UClothComponent.CreateClothFromMesh B st Vertices Indices InvMasses).ret = true ∧
      UClothComponent.IsClothValid
        (UClothComponent.CreateClothFromMesh B st Vertices Indices InvMasses).st = true ∧
      UClothComponent.GetNumParticles B
        (UClothComponent.CreateClothFromMesh B st Vertices Indices InvMasses).st
          = Vertices.length) ∨
    ((UClothComponent.CreateClothFromMesh B st Vertices Indices InvMasses).ret = false ∧
      UClothComponent.IsClothValid
        (UClothComponent.CreateClothFromMesh B st Vertices Indices InvMasses).st = false ∧
      (UClothComponent.CreateClothFromMesh B st Vertices Indices InvMasses).st.Comp.Fabric
        = none ∧
      ∃ tail, (UClothComponent.CreateClothFromMesh B st Vertices Indices InvMasses).calls
          = (UClothComponent.DestroyCloth st).2 ++ tail ∧
        (∀ fac d g f, NvCall.NvClothCookFabricFromMesh fac d g (some f) ∈ tail →
          tail.count (NvCall.decRefCount f) = 1) ∧
        (∀ fac P fab c, NvCall.createCloth fac P fab (some c) ∉ tail)) := by
  rcases UClothComponent.CreateClothFromMesh_cases B st Vertices Indices InvMasses with
    h | ⟨_, _, sys, fac, hsys, hinit, hfac, hcook | ⟨fab, hcook, hcreate | ⟨c, hcreate⟩⟩⟩
  · right
    rw [UClothComponent.CreateClothFromMesh_precondition B st Vertices Indices InvMasses h]
    exact ⟨rfl, rfl, rfl, [], by simp, by simp, by simp⟩
  · right
    rw [UClothComponent.CreateClothFromMesh_cook_null B st Vertices Indices InvMasses hV hI sys
      hsys hinit fac hfac hcook]
    exact ⟨rfl, rfl, rfl, _, rfl, by simp, by simp⟩
  · right
    rw [UClothComponent.CreateClothFromMesh_create_null B st Vertices Indices InvMasses hV hI sys
      hsys hinit fac hfac fab hcook hcreate]
    refine ⟨rfl, rfl, rfl, _, rfl, ?_, by simp⟩
    intro fac2 d g f hm
    simp at hm
    obtain ⟨_, _, _, rfl⟩ := hm
    simp [List.count_cons]
  · left
    rw [UClothComponent.CreateClothFromMesh_ok B st Vertices Indices InvMasses hV hI sys
      hsys hinit fac hfac fab hcook c hcreate]
    refine ⟨rfl, rfl, ?_⟩
    show B.getNumParticles c = Vertices.length
    rw [hB _ _ _ _ hcreate, UClothComponent.Particles_length]

theorem triangleBackend_numParticles :
    ∀ fac P fab c, triangleBackend.createCloth fac P fab = some c →
      triangleBackend.getNumParticles c = P.length := by
  intro fac P fab c h
  by_cases hP : P = triangleParticles
  · subst hP; rfl
  · simp [triangleBackend, constBackend, hP] at h

/-- Witness for C1: the unit triangle on `triangleBackend` is created and reports three
particles. -/
theorem CreateClothFromMesh_success_or_clean_failure_witness :
    3 ≤ triangleVertices.length ∧ 3 ≤ [0, 1, 2].length ∧
    (UClothComponent.CreateClothFromMesh triangleBackend sceneEmpty triangleVertices [0, 1, 2]
      []).ret = true ∧
    UClothComponent.IsClothValid
      (UClothComponent.CreateClothFromMesh triangleBackend sceneEmpty triangleVertices [0, 1, 2]
        []).st = true ∧
    UClothComponent.GetNumParticles triangleBackend
      (UClothComponent.CreateClothFromMesh triangleBackend sceneEmpty triangleVertices [0, 1, 2]
        []).st = 3 := by
  refine ⟨by decide, by decide, ?_⟩
  rcases CreateClothFromMesh_success_or_clean_failure triangleBackend sceneEmpty
    triangleVertices [0, 1, 2] [] (by decide) (by decide) triangleBackend_numParticles with
    h | h
  · exact h
  · exact absurd h.1 (by decide)

/-! ## `CreateClothFromMesh`: the state after a failed call -/

/-- C2, as amended: whenever `CreateClothFromMesh` returns false, the wrapper is left in the
state `DestroyCloth` produces, not in its prior state: no live instance, no fabric, empty
collision lists, the world as `DestroyCloth` left it (a previously live instance has been
unregistered from the system and deleted), the calls of `DestroyCloth` issued first.  Live
instance, registration and collision lists are as before the call when the wrapper held no
live instance and no collision primitives before. -/
theorem CreateClothFromMesh_failure_state {F : Type} [One F] (B : NvBackend F) (st : Scene F)
    (Vertices : List (FVector F)) (Indices : List Nat) (InvMasses : List F)
    (hfail : (UClothComponent.CreateClothFromMesh B st Vertices Indices InvMasses).ret = false) :
    (UClothComponent.CreateClothFromMesh B st Vertices Indices InvMasses).st.Comp.Cloth = none ∧
    (UClothComponent.CreateClothFromMesh B st Vertices Indices InvMasses).st.Comp.Fabric = none ∧
    (UClothComponent.CreateClothFromMesh B st Vertices Indices InvMasses).st.Comp.CollisionSpheres
      = [] ∧
    (UClothComponent.CreateClothFromMesh B st Vertices Indices InvMasses).st.Comp.CollisionRadii
      = [] ∧
    (UClothComponent.CreateClothFromMesh B st Vertices Indices
      InvMasses).st.Comp.CollisionCapsuleIndices = [] ∧
    (UClothComponent.CreateClothFromMesh B st Vertices Indices InvMasses).st.World
      = (UClothComponent.DestroyCloth st).1.World ∧
    (∃ tail, (UClothComponent.CreateClothFromMesh B st Vertices Indices InvMasses).calls
      = (UClothComponent.DestroyCloth st).2 ++ tail) ∧
    (∀ c, st.Comp.Cloth = some c →
      NvCall.deleteCloth c ∈ (UClothComponent.DestroyCloth st).2 ∧
      ∀ sys, UClothComponent.GetClothSystem st = some sys →
        UClothComponent.GetClothSystem (UClothComponent.DestroyCloth st).1
          = some (sys.UnregisterCloth (F := F) (some c)).1) ∧
    (st.Comp.Cloth = none → st.Comp.CollisionSpheres = [] → st.Comp.CollisionRadii = [] →
      st.Comp.CollisionCapsuleIndices = [] →
      (UClothComponent.CreateClothFromMesh B st Vertices Indices InvMasses).st.Comp.Cloth
        = st.Comp.Cloth ∧
      (UClothComponent.CreateClothFromMesh B st Vertices Indices InvMasses).st.World = st.World ∧
      (UClothComponent.CreateClothFromMesh B st Vertices Indices
        InvMasses).st.Comp.CollisionSpheres = st.Comp.CollisionSpheres ∧
      (UClothComponent.CreateClothFromMesh B st Vertices Indices
        InvMasses).st.Comp.CollisionRadii = st.Comp.CollisionRadii ∧
      (UClothComponent.CreateClothFromMesh B st Vertices Indices
        InvMasses).st.Comp.CollisionCapsuleIndices = st.Comp.CollisionCapsuleIndices) := by
  have hD : ∀ c, st.Comp.Cloth = some c →
      NvCall.deleteCloth c ∈ (UClothComponent.DestroyCloth st).2 ∧
      ∀ sys, UClothComponent.GetClothSystem st = some sys →
        UClothComponent.GetClothSystem (UClothComponent.DestroyCloth st).1
          = some (sys.UnregisterCloth (F := F) (some c)).1 := by
    intro c hc
    constructor
    · unfold UClothComponent.DestroyCloth
      simp only [hc]
      cases UClothComponent.GetClothSystem st <;> simp
    · intro sys hsys
      unfold UClothComponent.DestroyCloth
      simp only [hc, hsys]
      rfl
  have hW : st.Comp.Cloth = none → (UClothComponent.DestroyCloth st).1.World = st.World := by
    intro hc
    simp [UClothComponent.DestroyCloth, hc]
  have key : ∀ r : UClothComponent.CreateResult F,
      r.st.Comp.Cloth = none → r.st.Comp.Fabric = none → r.st.Comp.CollisionSpheres = [] →
      r.st.Comp.CollisionRadii = [] → r.st.Comp.CollisionCapsuleIndices = [] →
      r.st.World = (UClothComponent.DestroyCloth st).1.World →
      (∃ tail, r.calls = (UClothComponent.DestroyCloth st).2 ++ tail) →
      r.st.Comp.Cloth = none ∧ r.st.Comp.Fabric = none ∧ r.st.Comp.CollisionSpheres = [] ∧
      r.st.Comp.CollisionRadii = [] ∧ r.st.Comp.CollisionCapsuleIndices = [] ∧
      r.st.World = (UClothComponent.DestroyCloth st).1.World ∧
      (∃ tail, r.calls = (UClothComponent.DestroyCloth st).2 ++ tail) ∧
      (∀ c, st.Comp.Cloth = some c →
        NvCall.deleteCloth c ∈ (UClothComponent.DestroyCloth st).2 ∧
        ∀ sys, UClothComponent.GetClothSystem st = some sys →
          UClothComponent.GetClothSystem (UClothComponent.DestroyCloth st).1
            = some (sys.UnregisterCloth (F := F) (some c)).1) ∧
      (st.Comp.Cloth = none → st.Comp.CollisionSpheres = [] → st.Comp.CollisionRadii = [] →
        st.Comp.CollisionCapsuleIndices = [] →
        r.st.Comp.Cloth = st.Comp.Cloth ∧ r.st.World = st.World ∧
        r.st.Comp.CollisionSpheres = st.Comp.CollisionSpheres ∧
        r.st.Comp.CollisionRadii = st.Comp.CollisionRadii ∧
        r.st.Comp.CollisionCapsuleIndices = st.Comp.CollisionCapsuleIndices) := by
    intro r h1 h2 h3 h4 h5 h6 h7
    refine ⟨h1, h2, h3, h4, h5, h6, h7, hD, ?_⟩
    intro a b c d
    exact ⟨h1.trans a.symm, h6.trans (hW a), h3.trans b.symm, h4.trans c.symm,
      h5.trans d.symm⟩
  rcases UClothComponent.CreateClothFromMesh_cases B st Vertices Indices InvMasses with
    h | ⟨hV, hI, sys, fac, hsys, hinit, hfac, hcook | ⟨fab, hcook, hcreate | ⟨c, hcreate⟩⟩⟩
  · rw [UClothComponent.CreateClothFromMesh_precondition B st Vertices Indices InvMasses h]
    exact key _ rfl rfl rfl rfl rfl rfl ⟨[], by simp⟩
  · rw [UClothComponent.CreateClothFromMesh_cook_null B st Vertices Indices InvMasses hV hI sys
      hsys hinit fac hfac hcook]
    exact key _ rfl rfl rfl rfl rfl rfl ⟨_, rfl⟩
  · rw [UClothComponent.CreateClothFromMesh_create_null B st Vertices Indices InvMasses hV hI sys
      hsys hinit fac hfac fab hcook hcreate]
    exact key _ rfl rfl rfl rfl rfl rfl ⟨_, rfl⟩
  · rw [UClothComponent.CreateClothFromMesh_ok B st Vertices Indices InvMasses hV hI sys
      hsys hinit fac hfac fab hcook c hcreate] at hfail
    cases hfail

/-- Witness for C2: a failed creation (instance creation returns null) on the empty wrapper
leaves it without instance, with the world and the empty collision lists it had. -/
theorem CreateClothFromMesh_failure_state_witness :
    (UClothComponent.CreateClothFromMesh noClothBackend sceneEmpty triangleVertices [0, 1, 2]
      []).ret = false ∧
    (UClothComponent.CreateClothFromMesh noClothBackend sceneEmpty triangleVertices [0, 1, 2]
      []).st.Comp.Cloth = sceneEmpty.Comp.Cloth ∧
    (UClothComponent.CreateClothFromMesh noClothBackend sceneEmpty triangleVertices [0, 1, 2]
      []).st.World = sceneEmpty.World := by
  have h := (CreateClothFromMesh_failure_state noClothBackend sceneEmpty triangleVertices
    [0, 1, 2] [] (by decide)).2.2.2.2.2.2.2.2 rfl rfl rfl rfl
  exact ⟨by decide, h.1, h.2.1⟩

/-- C2 counterexample: `sceneLive` holds the live instance `7`, registered in the system, and
one collision sphere.  `CreateClothFromMesh` with no vertices returns false, and afterwards the
instance is gone, the system's registered set is empty and the sphere list is empty: the state
is not the prior one. -/
theorem CreateClothFromMesh_failure_destroys_counterexample :
    (UClothComponent.CreateClothFromMesh okBackend sceneLive [] [] []).ret = false ∧
    sceneLive.Comp.Cloth = some 7 ∧
    (UClothComponent.CreateClothFromMesh okBackend sceneLive [] [] []).st.Comp.Cloth = none ∧
    (UClothComponent.GetClothSystem sceneLive).map FClothSimulationSystem.RegisteredCloths
      = some [some 7] ∧
    (UClothComponent.GetClothSystem
      (UClothComponent.CreateClothFromMesh okBackend sceneLive [] [] []).st).map
        FClothSimulationSystem.RegisteredCloths = some [] ∧
    sceneLive.Comp.CollisionSpheres = [⟨5, 5, 5⟩] ∧
    sceneLive.Comp.CollisionRadii = [2] ∧
    (UClothComponent.CreateClothFromMesh okBackend sceneLive [] [] []).st.Comp.CollisionSpheres
      = [] ∧
    (UClothComponent.CreateClothFromMesh okBackend sceneLive [] [] []).st.Comp.CollisionRadii
      = [] ∧
    (UClothComponent.CreateClothFromMesh okBackend sceneLive [] [] []).calls
      = [NvCall.removeCloth 2 7, NvCall.deleteCloth 7, NvCall.decRefCount 3] := by
  decide

/-! ## `CreateClothFromMesh`: the initial particle buffer -/

theorem UClothComponent.createCloth_not_mem_DestroyCloth {F : Type} (st : Scene F) (fac : Nat)
    (P : List (PxVec4 F)) (fab : Nat) (res : Ptr) :
    NvCall.createCloth fac P fab res ∉ (UClothComponent.DestroyCloth st).2 := by
  unfold UClothComponent.DestroyCloth
  cases st.Comp.Cloth with
  | none => cases st.Comp.Fabric <;> simp
  | some c =>
    cases hs : UClothComponent.GetClothSystem st with
    | none => cases st.Comp.Fabric <;> simp
    | some sys =>
      have hu : NvCall.createCloth fac P fab res ∉ (sys.UnregisterCloth (F := F) (some c)).2 := by
        unfold FClothSimulationSystem.UnregisterCloth
        cases sys.Solver with
        | none => simp
        | some sv => cases TArray.Find sys.RegisteredCloths (some c) <;> simp
      cases st.Comp.Fabric <;> simp [hu]

theorem UClothComponent.Particles_getElem? {F : Type} [One F] (Vertices : List (FVector F))
    (InvMasses : List F) (i : Nat) (v : FVector F) (hv : Vertices[i]? = some v) :
    (InvMasses.length = Vertices.length →
      ∃ m, InvMasses[i]? = some m ∧
        (UClothComponent.Particles Vertices (UClothComponent.InvMassData Vertices InvMasses))[i]?
          = some (PxVec4.mk v.X v.Y v.Z m)) ∧
    (InvMasses.length ≠ Vertices.length →
      (UClothComponent.Particles Vertices (UClothComponent.InvMassData Vertices InvMasses))[i]?
        = some (PxVec4.mk v.X v.Y v.Z 1)) := by
  have hi : i < Vertices.length := by
    by_contra hn
    rw [List.getElem?_eq_none (by omega)] at hv
    cases hv
  have hvi : Vertices[i] = v := by
    rw [List.getElem?_eq_getElem hi] at hv
    exact Option.some.inj hv
  subst hvi
  constructor
  · intro hlen
    have him : i < InvMasses.length := by omega
    refine ⟨InvMasses[i], List.getElem?_eq_getElem him, ?_⟩
    simp [UClothComponent.Particles, UClothComponent.InvMassData, hlen, List.getElem?_zipWith, hv,
      List.getElem?_eq_getElem him]
  · intro hlen
    simp [UClothComponent.Particles, UClothComponent.InvMassData, hlen, List.getElem?_zipWith, hv,
      List.getElem?_replicate, hi]

/-- C7: every `createCloth` call that `CreateClothFromMesh` issues is handed a particle buffer
with exactly one entry per supplied vertex, in input order, entry `i` being
`(Vertices[i].X, Vertices[i].Y, Vertices[i].Z, w_i)` with `w_i = InvMasses[i]` when `InvMasses`
has as many entries as `Vertices`, and `w_i = 1` otherwise, in particular when `InvMasses` is
empty.  The call is issued whenever the preconditions hold and cooking returns a fabric. -/
theorem CreateClothFromMesh_particle_buffer {F : Type} [One F] (B : NvBackend F) (st : Scene F)
    (Vertices : List (FVector F)) (Indices : List Nat) (InvMasses : List F) :
    (∀ fac P fab res,
      NvCall.createCloth fac P fab res ∈
        (UClothComponent.CreateClothFromMesh B st Vertices Indices InvMasses).calls →
      P.length = Vertices.length ∧
      ∀ (i : Nat) (v : FVector F), Vertices[i]? = some v →
        (InvMasses.length = Vertices.length →
          ∃ m, InvMasses[i]? = some m ∧ P[i]? = some (PxVec4.mk v.X v.Y v.Z m)) ∧
        (InvMasses.length ≠ Vertices.length → P[i]? = some (PxVec4.mk v.X v.Y v.Z 1)) ∧
        (InvMasses = [] → P[i]? = some (PxVec4.mk v.X v.Y v.Z 1))) ∧
    (∀ sys fac fab, 3 ≤ Vertices.length → 3 ≤ Indices.length →
      UClothComponent.GetClothSystem (UClothComponent.DestroyCloth st).1 = some sys →
      sys.IsInitialized = true → sys.GetFactory = some fac →
      B.NvClothCookFabricFromMesh fac
        (UClothComponent.MeshDesc Vertices Indices
          (UClothComponent.InvMassData Vertices InvMasses))
        (B.normalize (UClothComponent.toPx st.Comp.ClothConfig.Gravity)) = some fab →
      ∃ P res, NvCall.createCloth fac P fab res ∈
        (UClothComponent.CreateClothFromMesh B st Vertices Indices InvMasses).calls) := by
  have shape : ∀ P : List (PxVec4 F),
      P = UClothComponent.Particles Vertices (UClothComponent.InvMassData Vertices InvMasses) →
      P.length = Vertices.length ∧
      ∀ (i : Nat) (v : FVector F), Vertices[i]? = some v →
        (InvMasses.length = Vertices.length →
          ∃ m, InvMasses[i]? = some m ∧ P[i]? = some (PxVec4.mk v.X v.Y v.Z m)) ∧
        (InvMasses.length ≠ Vertices.length → P[i]? = some (PxVec4.mk v.X v.Y v.Z 1)) ∧
        (InvMasses = [] → P[i]? = some (PxVec4.mk v.X v.Y v.Z 1)) := by
    intro P hP
    subst hP
    refine ⟨UClothComponent.Particles_length Vertices InvMasses, ?_⟩
    intro i v hv
    have h := UClothComponent.Particles_getElem? Vertices InvMasses i v hv
    refine ⟨h.1, h.2, ?_⟩
    intro hM
    apply h.2
    subst hM
    intro h0
    have hV0 : Vertices = [] := List.length_eq_zero.mp h0.symm
    subst hV0
    cases hv
  have hnd := UClothComponent.createCloth_not_mem_DestroyCloth st
  constructor
  · intro fac P fab res hmem
    apply shape
    rcases UClothComponent.CreateClothFromMesh_cases B st Vertices Indices InvMasses with
      h | ⟨hV, hI, sys, fac2, hsys, hinit, hfac, hcook | ⟨fab2, hcook, hcreate | ⟨c, hcreate⟩⟩⟩
    · rw [UClothComponent.CreateClothFromMesh_precondition B st Vertices Indices InvMasses h]
        at hmem
      exact absurd hmem (hnd _ _ _ _)
    · rw [UClothComponent.CreateClothFromMesh_cook_null B st Vertices Indices InvMasses hV hI sys
        hsys hinit fac2 hfac hcook] at hmem
      simp [hnd] at hmem
    · rw [UClothComponent.CreateClothFromMesh_create_null B st Vertices Indices InvMasses hV hI
        sys hsys hinit fac2 hfac fab2 hcook hcreate] at hmem
      simp [hnd] at hmem
      exact hmem.2.1
    · rw [UClothComponent.CreateClothFromMesh_ok B st Vertices Indices InvMasses hV hI sys
        hsys hinit fac2 hfac fab2 hcook c hcreate] at hmem
      have hr : NvCall.createCloth fac P fab res ∉
          (sys.RegisterCloth (F := F) (some c)).2 := by
        unfold FClothSimulationSystem.RegisterCloth
        cases sys.bInitialized <;> cases sys.Solver <;>
          cases TArray.Find sys.RegisteredCloths (some c) <;> simp
      simp [hnd, hr, UClothComponent.ApplyClothConfigCalls] at hmem
      exact hmem.2.1
  · intro sys fac fab hV hI hsys hinit hfac hcook
    cases hcreate : B.createCloth fac
        (UClothComponent.Particles Vertices (UClothComponent.InvMassData Vertices InvMasses))
        fab with
    | none =>
      rw [UClothComponent.CreateClothFromMesh_create_null B st Vertices Indices InvMasses hV hI
        sys hsys hinit fac hfac fab hcook hcreate]
      exact ⟨UClothComponent.Particles Vertices (UClothComponent.InvMassData Vertices InvMasses),
        none, by simp⟩
    | some c =>
      rw [UClothComponent.CreateClothFromMesh_ok B st Vertices Indices InvMasses hV hI sys
        hsys hinit fac hfac fab hcook c hcreate]
      exact ⟨UClothComponent.Particles Vertices (UClothComponent.InvMassData Vertices InvMasses),
        some c, by simp⟩

/-- Witness for C7: the buffer handed over for the unit triangle without inverse masses. -/
theorem CreateClothFromMesh_particle_buffer_witness :
    NvCall.createCloth 1 triangleParticles 3 (some 7) ∈
      (UClothComponent.CreateClothFromMesh triangleBackend sceneEmpty triangleVertices
        [0, 1, 2] []).calls ∧
    triangleParticles.length = triangleVertices.length ∧
    triangleParticles[1]? = some (PxVec4.mk 1 0 0 1) := by
  have hm : NvCall.createCloth 1 triangleParticles 3 (some 7) ∈
      (UClothComponent.CreateClothFromMesh triangleBackend sceneEmpty triangleVertices
        [0, 1, 2] []).calls := by decide
  have h := (CreateClothFromMesh_particle_buffer triangleBackend sceneEmpty triangleVertices
    [0, 1, 2] []).1 1 triangleParticles 3 (some 7) hm
  exact ⟨hm, h.1, (h.2 1 ⟨1, 0, 0⟩ rfl).2.2 rfl⟩

/-! ## `GetSimulatedPositions` -/

theorem UClothComponent.GetSimulatedPositions_of_reported {F : Type} [One F] (B : NvBackend F)
    (st : Scene F) (c : Nat) (hc : st.Comp.Cloth = some c) (Vertices : List (FVector F))
    (InvMasses : List F)
    (hn : B.getNumParticles c = Vertices.length)
    (hp : ∀ (i : Nat) (p : PxVec4 F),
      (UClothComponent.Particles Vertices (UClothComponent.InvMassData Vertices InvMasses))[i]?
        = some p → B.getCurrentParticles c i = p)
    (OutPositions : List (FVector F)) :
    UClothComponent.GetSimulatedPositions B st OutPositions = Vertices := by
  unfold UClothComponent.GetSimulatedPositions
  simp only [hc, hn]
  apply List.ext_getElem?
  intro i
  by_cases hi : i < Vertices.length
  · have hw : i < (UClothComponent.InvMassData Vertices InvMasses).length := by
      rw [UClothComponent.InvMassData_length]; exact hi
    have hP := hp i ⟨Vertices[i].X, Vertices[i].Y, Vertices[i].Z,
        (UClothComponent.InvMassData Vertices InvMasses)[i]⟩
      (by simp [UClothComponent.Particles, List.getElem?_zipWith, List.getElem?_eq_getElem hi,
        List.getElem?_eq_getElem hw])
    simp [List.getElem?_range, hi, hP, List.getElem?_eq_getElem hi]
  · have hle : Vertices.length ≤ i := Nat.le_of_not_lt hi
    rw [List.getElem?_eq_none (by simpa using hle), List.getElem?_eq_none hle]

/-- C8: after a successful `CreateClothFromMesh(Vertices, ...)` on a backend whose instance
reports the particles it was created with, `GetSimulatedPositions` returns exactly the list
`Vertices`: as many entries, in input order, each the original position with the inverse-mass
channel dropped, whatever the output array held before. -/
theorem GetSimulatedPositions_after_create {F : Type} [One F] (B : NvBackend F) (st : Scene F)
    (Vertices : List (FVector F)) (Indices : List Nat) (InvMasses : List F)
    (hok : (UClothComponent.CreateClothFromMesh B st Vertices Indices InvMasses).ret = true)
    (hB : ∀ (fac : Nat) (P : List (PxVec4 F)) (fab c : Nat),
      B.createCloth fac P fab = some c →
        B.getNumParticles c = P.length ∧
        ∀ (i : Nat) (p : PxVec4 F), P[i]? = some p → B.getCurrentParticles c i = p)
    (OutPositions : List (FVector F)) :
    UClothComponent.GetSimulatedPositions B
        (UClothComponent.CreateClothFromMesh B st Vertices Indices InvMasses).st OutPositions
      = Vertices ∧
    (UClothComponent.GetSimulatedPositions B
        (UClothComponent.CreateClothFromMesh B st Vertices Indices InvMasses).st
        OutPositions).length = Vertices.length := by
  have main : UClothComponent.GetSimulatedPositions B
        (UClothComponent.CreateClothFromMesh B st Vertices Indices InvMasses).st OutPositions
      = Vertices := by
    rcases UClothComponent.CreateClothFromMesh_cases B st Vertices Indices InvMasses with
      h | ⟨hV, hI, sys, fac, hsys, hinit, hfac, hcook | ⟨fab, hcook, hcreate | ⟨c, hcreate⟩⟩⟩
    · rw [UClothComponent.CreateClothFromMesh_precondition B st Vertices Indices InvMasses h]
        at hok
      cases hok
    · rw [UClothComponent.CreateClothFromMesh_cook_null B st Vertices Indices InvMasses hV hI sys
        hsys hinit fac hfac hcook] at hok
      cases hok
    · rw [UClothComponent.CreateClothFromMesh_create_null B st Vertices Indices InvMasses hV hI
        sys hsys hinit fac hfac fab hcook hcreate] at hok
      cases hok
    · rw [UClothComponent.CreateClothFromMesh_ok B st Vertices Indices InvMasses hV hI sys
        hsys hinit fac hfac fab hcook c hcreate]
      obtain ⟨hn, hp⟩ := hB _ _ _ _ hcreate
      rw [UClothComponent.Particles_length] at hn
      exact UClothComponent.GetSimulatedPositions_of_reported B _ c rfl Vertices InvMasses hn hp
        OutPositions
  exact ⟨main, by rw [main]⟩

theorem triangleBackend_reports :
    ∀ (fac : Nat) (P : List (PxVec4 Int)) (fab c : Nat),
      triangleBackend.createCloth fac P fab = some c →
        triangleBackend.getNumParticles c = P.length ∧
        ∀ (i : Nat) (p : PxVec4 Int), P[i]? = some p →
          triangleBackend.getCurrentParticles c i = p := by
  intro fac P fab c h
  by_cases hP : P = triangleParticles
  · subst hP
    refine ⟨rfl, ?_⟩
    intro i p hp
    show triangleParticles.getD i ⟨0, 0, 0, 0⟩ = p
    rw [List.getD_eq_getElem?_getD, hp]
    rfl
  · simp [triangleBackend, constBackend, hP] at h

/-- Witness for C8: reading back the unit triangle right after creating it, into an output
array that held something else. -/
theorem GetSimulatedPositions_after_create_witness :
    (UClothComponent.CreateClothFromMesh triangleBackend sceneEmpty triangleVertices [0, 1, 2]
      []).ret = true ∧
    UClothComponent.GetSimulatedPositions triangleBackend
        (UClothComponent.CreateClothFromMesh triangleBackend sceneEmpty triangleVertices
          [0, 1, 2] []).st [⟨9, 9, 9⟩]
      = [⟨0, 0, 0⟩, ⟨1, 0, 0⟩, ⟨0, 1, 0⟩] :=
  ⟨by decide, (GetSimulatedPositions_after_create triangleBackend sceneEmpty triangleVertices
    [0, 1, 2] [] (by decide) triangleBackend_reports [⟨9, 9, 9⟩]).1⟩

/-! ## `DestroyCloth` -/

/-- C9: in every wrapper state, after `DestroyCloth` the output of `GetSimulatedPositions` is
empty whatever the output array held before, and a second `DestroyCloth` leaves the state
unchanged and issues no backend call. -/
theorem DestroyCloth_idempotent {F : Type} (B : NvBackend F) (st : Scene F)
    (OutPositions : List (FVector F)) :
    UClothComponent.GetSimulatedPositions B (UClothComponent.DestroyCloth st).1 OutPositions
      = [] ∧
    UClothComponent.DestroyCloth (UClothComponent.DestroyCloth st).1
      = ((UClothComponent.DestroyCloth st).1, []) := by
  constructor
  · simp [UClothComponent.GetSimulatedPositions, UClothComponent.DestroyCloth_Cloth]
  · rfl

/-! ## `ApplyClothConfig` staged before creation -/

/-- C10: for every config `cfg`, `ApplyClothConfig(cfg)` on a wrapper with no live instance
issues no backend call, and a following successful `CreateClothFromMesh` issues, right after
cooking and instance creation and before registration, the fourteen setters on the new
instance with the fields of `cfg`: gravity, damping, solver frequency, wind velocity, drag,
lift, friction, self-collision distance and stiffness, tether scale and stiffness, linear,
angular and centrifugal inertia.  The stored config is `cfg`. -/
theorem ApplyClothConfig_staged_then_created {F : Type} [One F] (B : NvBackend F)
    (st : Scene F) (cfg : FClothConfig F) (hno : st.Comp.Cloth = none)
    (Vertices : List (FVector F)) (Indices : List Nat) (InvMasses : List F) :
    (UClothComponent.ApplyClothConfig st.Comp cfg).2 = [] ∧
    ((UClothComponent.CreateClothFromMesh B
        { st with Comp := (UClothComponent.ApplyClothConfig st.Comp cfg).1 }
        Vertices Indices InvMasses).ret = true →
      ∃ (sys : FClothSimulationSystem) (fac fab c : Nat) (desc : ClothMeshDesc F)
          (dir : PxVec3 F) (P : List (PxVec4 F)),
        (UClothComponent.CreateClothFromMesh B
          { st with Comp := (UClothComponent.ApplyClothConfig st.Comp cfg).1 }
          Vertices Indices InvMasses).st.Comp.Cloth = some c ∧
        (UClothComponent.CreateClothFromMesh B
          { st with Comp := (UClothComponent.ApplyClothConfig st.Comp cfg).1 }
          Vertices Indices InvMasses).st.Comp.ClothConfig = cfg ∧
        (UClothComponent.CreateClothFromMesh B
          { st with Comp := (UClothComponent.ApplyClothConfig st.Comp cfg).1 }
          Vertices Indices InvMasses).calls =
          (UClothComponent.DestroyCloth
            { st with Comp := (UClothComponent.ApplyClothConfig st.Comp cfg).1 }).2 ++
          [NvCall.NvClothCookFabricFromMesh fac desc dir (some fab),
           NvCall.createCloth fac P fab (some c)] ++
          [NvCall.setGravity c ⟨cfg.Gravity.X, cfg.Gravity.Y, cfg.Gravity.Z⟩,
           NvCall.setDamping c ⟨cfg.Damping.X, cfg.Damping.Y, cfg.Damping.Z⟩,
           NvCall.setSolverFrequency c cfg.SolverFrequency,
           NvCall.setWindVelocity c ⟨cfg.WindVelocity.X, cfg.WindVelocity.Y, cfg.WindVelocity.Z⟩,
           NvCall.setDragCoefficient c cfg.DragCoefficient,
           NvCall.setLiftCoefficient c cfg.LiftCoefficient,
           NvCall.setFriction c cfg.Friction,
           NvCall.setSelfCollisionDistance c cfg.SelfCollisionDistance,
           NvCall.setSelfCollisionStiffness c cfg.SelfCollisionStiffness,
           NvCall.setTetherConstraintScale c cfg.TetherConstraintScale,
           NvCall.setTetherConstraintStiffness c cfg.TetherConstraintStiffness,
           NvCall.setLinearInertia c
            ⟨cfg.LinearInertia.X, cfg.LinearInertia.Y, cfg.LinearInertia.Z⟩,
           NvCall.setAngularInertia c
            ⟨cfg.AngularInertia.X, cfg.AngularInertia.Y, cfg.AngularInertia.Z⟩,
           NvCall.setCentrifugalInertia c
            ⟨cfg.CentrifugalInertia.X, cfg.CentrifugalInertia.Y, cfg.CentrifugalInertia.Z⟩] ++
          (sys.RegisterCloth (F := F) (some c)).2) := by
  have hA : (UClothComponent.ApplyClothConfig st.Comp cfg).1
      = { st.Comp with ClothConfig := cfg } := by
    simp [UClothComponent.ApplyClothConfig, hno]
  constructor
  · simp [UClothComponent.ApplyClothConfig, hno]
  · rw [hA]
    intro hok
    rcases UClothComponent.CreateClothFromMesh_cases B
        { st with Comp := { st.Comp with ClothConfig := cfg } }
        Vertices Indices InvMasses with
      h | ⟨hV, hI, sys, fac, hsys, hinit, hfac, hcook | ⟨fab, hcook, hcreate | ⟨c, hcreate⟩⟩⟩
    · rw [UClothComponent.CreateClothFromMesh_precondition B _ Vertices Indices InvMasses h]
        at hok
      cases hok
    · rw [UClothComponent.CreateClothFromMesh_cook_null B _ Vertices Indices InvMasses hV hI sys
        hsys hinit fac hfac hcook] at hok
      cases hok
    · rw [UClothComponent.CreateClothFromMesh_create_null B _ Vertices Indices InvMasses hV hI
        sys hsys hinit fac hfac fab hcook hcreate] at hok
      cases hok
    · rw [UClothComponent.CreateClothFromMesh_ok B _ Vertices Indices InvMasses hV hI sys
        hsys hinit fac hfac fab hcook c hcreate]
      exact ⟨sys, fac, fab, c,
        UClothComponent.MeshDesc Vertices Indices
          (UClothComponent.InvMassData Vertices InvMasses),
        B.normalize (UClothComponent.toPx cfg.Gravity),
        UClothComponent.Particles Vertices (UClothComponent.InvMassData Vertices InvMasses),
        rfl, rfl, rfl⟩

/-- Witness for C10: `sampleConfig` staged on a wrapper without instance (whose stored config
differs), then the unit triangle created. -/
theorem ApplyClothConfig_staged_then_created_witness :
    ({ compEmpty with ClothConfig := { sampleConfig with Friction := 0 } } :
      UClothComponent Int).Cloth = none ∧
    (UClothComponent.ApplyClothConfig
      ({ compEmpty with ClothConfig := { sampleConfig with Friction := 0 } } :
        UClothComponent Int) sampleConfig).2 = [] ∧
    (UClothComponent.CreateClothFromMesh triangleBackend
        { sceneEmpty with Comp := (UClothComponent.ApplyClothConfig
          ({ compEmpty with ClothConfig := { sampleConfig with Friction := 0 } } :
            UClothComponent Int) sampleConfig).1 }
        triangleVertices [0, 1, 2] []).st.Comp.ClothConfig = sampleConfig ∧
    NvCall.setFriction 7 9 ∈
      (UClothComponent.CreateClothFromMesh triangleBackend
        { sceneEmpty with Comp := (UClothComponent.ApplyClothConfig
          ({ compEmpty with ClothConfig := { sampleConfig with Friction := 0 } } :
            UClothComponent Int) sampleConfig).1 }
        triangleVertices [0, 1, 2] []).calls := by
  have h := ApplyClothConfig_staged_then_created triangleBackend
    { sceneEmpty with Comp := { compEmpty with ClothConfig := { sampleConfig with Friction := 0 } } }
    sampleConfig rfl triangleVertices [0, 1, 2] []
  obtain ⟨sys, fac, fab, c, desc, dir, P, _, hcfg, _⟩ := h.2 (by decide)
  exact ⟨rfl, h.1, hcfg, by decide⟩

/-! ## The collision arrays -/

theorem CollisionInv.of_empty {F : Type} (C : UClothComponent F)
    (h1 : C.CollisionSpheres = []) (h2 : C.CollisionRadii = [])
    (h3 : C.CollisionCapsuleIndices = []) : CollisionInv C :=
  ⟨by simp [h1, h2], by simp [h3], by simp [h3], fun _ => ⟨h1, h2, h3⟩⟩

theorem UClothComponent.CreateClothFromMesh_collision_empty {F : Type} [One F]
    (B : NvBackend F) (st : Scene F) (Vertices : List (FVector F)) (Indices : List Nat)
    (InvMasses : List F) :
    (UClothComponent.CreateClothFromMesh B st Vertices Indices InvMasses).st.Comp.CollisionSpheres
      = [] ∧
    (UClothComponent.CreateClothFromMesh B st Vertices Indices InvMasses).st.Comp.CollisionRadii
      = [] ∧
    (UClothComponent.CreateClothFromMesh B st Vertices Indices
      InvMasses).st.Comp.CollisionCapsuleIndices = [] := by
  rcases UClothComponent.CreateClothFromMesh_cases B st Vertices Indices InvMasses with
    h | ⟨hV, hI, sys, fac, hsys, hinit, hfac, hcook | ⟨fab, hcook, hcreate | ⟨c, hcreate⟩⟩⟩
  · rw [UClothComponent.CreateClothFromMesh_precondition B st Vertices Indices InvMasses h]
    exact ⟨rfl, rfl, rfl⟩
  · rw [UClothComponent.CreateClothFromMesh_cook_null B st Vertices Indices InvMasses hV hI sys
      hsys hinit fac hfac hcook]
    exact ⟨rfl, rfl, rfl⟩
  · rw [UClothComponent.CreateClothFromMesh_create_null B st Vertices Indices InvMasses hV hI
      sys hsys hinit fac hfac fab hcook hcreate]
    exact ⟨rfl, rfl, rfl⟩
  · rw [UClothComponent.CreateClothFromMesh_ok B st Vertices Indices InvMasses hV hI sys
      hsys hinit fac hfac fab hcook c hcreate]
    exact ⟨rfl, rfl, rfl⟩

namespace UClothComponent

theorem ApplyClothConfig_no_cloth {F : Type} (C : UClothComponent F) (Config : FClothConfig F)
    (hc : C.Cloth = none) :
    ApplyClothConfig C Config = ({ C with ClothConfig := Config }, []) := by
  simp [ApplyClothConfig, hc]

theorem ApplyClothConfig_live {F : Type} (C : UClothComponent F) (Config : FClothConfig F)
    (c : Nat) (hc : C.Cloth = some c) :
    ApplyClothConfig C Config
      = ({ C with ClothConfig := Config }, ApplyClothConfigCalls c Config) := by
  simp [ApplyClothConfig, hc]

theorem UpdateClothTransform_no_cloth {F : Type} (C : UClothComponent F)
    (Translation : FVector F) (Rotation : FQuat F) (hc : C.Cloth = none) :
    UpdateClothTransform C Translation Rotation = (C, []) := by
  simp [UpdateClothTransform, hc]

theorem UpdateClothTransform_live {F : Type} (C : UClothComponent F)
    (Translation : FVector F) (Rotation : FQuat F) (c : Nat) (hc : C.Cloth = some c) :
    UpdateClothTransform C Translation Rotation =
      ({ C with CachedTranslation := Translation, CachedRotation := Rotation },
        [NvCall.setTranslation c ⟨Translation.X, Translation.Y, Translation.Z⟩,
         NvCall.setRotation c ⟨Rotation.X, Rotation.Y, Rotation.Z, Rotation.W⟩]) := by
  simp [UpdateClothTransform, hc, toPx]

theorem AddCollisionSphere_no_cloth {F : Type} (C : UClothComponent F) (Center : FVector F)
    (Radius : F) (hc : C.Cloth = none) :
    AddCollisionSphere C Center Radius = (C, []) := by
  simp [AddCollisionSphere, hc]

theorem AddCollisionSphere_live {F : Type} (C : UClothComponent F) (Center : FVector F)
    (Radius : F) (c : Nat) (hc : C.Cloth = some c) :
    AddCollisionSphere C Center Radius =
      ({ C with
          CollisionSpheres := C.CollisionSpheres ++ [Center]
          CollisionRadii := C.CollisionRadii ++ [Radius] },
        [NvCall.setSpheres c
          (Spheres (C.CollisionSpheres ++ [Center]) (C.CollisionRadii ++ [Radius])) 0
          (Spheres (C.CollisionSpheres ++ [Center]) (C.CollisionRadii ++ [Radius])).length]) := by
  simp [AddCollisionSphere, hc]

theorem AddCollisionCapsule_no_cloth {F : Type} (C : UClothComponent F)
    (SphereIndex0 SphereIndex1 : Nat) (hc : C.Cloth = none) :
    AddCollisionCapsule C SphereIndex0 SphereIndex1 = (C, []) := by
  simp [AddCollisionCapsule, hc]

theorem AddCollisionCapsule_rejected {F : Type} (C : UClothComponent F)
    (SphereIndex0 SphereIndex1 : Nat)
    (hg : SphereIndex0 ≥ C.CollisionSpheres.length ∨ SphereIndex1 ≥ C.CollisionSpheres.length) :
    AddCollisionCapsule C SphereIndex0 SphereIndex1 = (C, []) := by
  unfold AddCollisionCapsule
  cases C.Cloth with
  | none => rfl
  | some c => simp only [hg, if_true]

theorem AddCollisionCapsule_live {F : Type} (C : UClothComponent F)
    (SphereIndex0 SphereIndex1 : Nat) (c : Nat) (hc : C.Cloth = some c)
    (h0 : SphereIndex0 < C.CollisionSpheres.length)
    (h1 : SphereIndex1 < C.CollisionSpheres.length) :
    AddCollisionCapsule C SphereIndex0 SphereIndex1 =
      ({ C with
          CollisionCapsuleIndices := C.CollisionCapsuleIndices ++ [SphereIndex0, SphereIndex1] },
        [NvCall.setCapsules c (C.CollisionCapsuleIndices ++ [SphereIndex0, SphereIndex1]) 0
          ((C.CollisionCapsuleIndices ++ [SphereIndex0, SphereIndex1]).length / 2)]) := by
  have hg : ¬ (SphereIndex0 ≥ C.CollisionSpheres.length ∨
      SphereIndex1 ≥ C.CollisionSpheres.length) := by omega
  simp [AddCollisionCapsule, hc, hg]

end UClothComponent

theorem CollisionInv.ApplyClothConfig {F : Type} (C : UClothComponent F)
    (Config : FClothConfig F) (h : CollisionInv C) :
    CollisionInv (UClothComponent.ApplyClothConfig C Config).1 := by
  cases hc : C.Cloth with
  | none =>
    rw [UClothComponent.ApplyClothConfig_no_cloth C Config hc]
    exact ⟨h.radii, h.even, h.bound, h.staged⟩
  | some c =>
    rw [UClothComponent.ApplyClothConfig_live C Config c hc]
    exact ⟨h.radii, h.even, h.bound, h.staged⟩

theorem CollisionInv.UpdateClothTransform {F : Type} (C : UClothComponent F)
    (Translation : FVector F) (Rotation : FQuat F) (h : CollisionInv C) :
    CollisionInv (UClothComponent.UpdateClothTransform C Translation Rotation).1 := by
  cases hc : C.Cloth with
  | none =>
    rw [UClothComponent.UpdateClothTransform_no_cloth C Translation Rotation hc]
    exact h
  | some c =>
    rw [UClothComponent.UpdateClothTransform_live C Translation Rotation c hc]
    exact ⟨h.radii, h.even, h.bound, h.staged⟩

theorem CollisionInv.AddCollisionSphere {F : Type} (C : UClothComponent F)
    (Center : FVector F) (Radius : F) (h : CollisionInv C) :
    CollisionInv (UClothComponent.AddCollisionSphere C Center Radius).1 := by
  cases hc : C.Cloth with
  | none =>
    rw [UClothComponent.AddCollisionSphere_no_cloth C Center Radius hc]
    exact h
  | some c =>
    rw [UClothComponent.AddCollisionSphere_live C Center Radius c hc]
    refine ⟨?_, h.even, ?_, ?_⟩
    · simp [h.radii]
    · intro i hi
      have := h.bound i hi
      simp only [List.length_append, List.length_singleton]
      omega
    · intro hn
      have hn2 : C.Cloth = none := hn
      rw [hc] at hn2
      cases hn2

theorem CollisionInv.AddCollisionCapsule {F : Type} (C : UClothComponent F)
    (SphereIndex0 SphereIndex1 : Nat) (h : CollisionInv C) :
    CollisionInv (UClothComponent.AddCollisionCapsule C SphereIndex0 SphereIndex1).1 := by
  cases hc : C.Cloth with
  | none =>
    rw [UClothComponent.AddCollisionCapsule_no_cloth C _ _ hc]
    exact h
  | some c =>
    by_cases hg : SphereIndex0 ≥ C.CollisionSpheres.length ∨
        SphereIndex1 ≥ C.CollisionSpheres.length
    · rw [UClothComponent.AddCollisionCapsule_rejected C _ _ hg]
      exact h
    · rw [UClothComponent.AddCollisionCapsule_live C _ _ c hc (by omega) (by omega)]
      refine ⟨h.radii, ?_, ?_, ?_⟩
      · have := h.even
        simp only [List.length_append, List.length_cons, List.length_nil]
        omega
      · intro i hi
        simp only [List.mem_append, List.mem_cons, List.mem_singleton, List.not_mem_nil,
          or_false] at hi
        rcases hi with hi | hi | hi
        · exact h.bound i hi
        · show i < C.CollisionSpheres.length
          omega
        · show i < C.CollisionSpheres.length
          omega
      · intro hn
        have hn2 : C.Cloth = none := hn
        rw [hc] at hn2
        cases hn2

theorem CollisionInv.ClearCollision {F : Type} (B : NvBackend F) (C : UClothComponent F) :
    CollisionInv (UClothComponent.ClearCollision B C).1 := by
  unfold UClothComponent.ClearCollision
  cases C.Cloth <;> exact CollisionInv.of_empty _ rfl rfl rfl

theorem SceneReachable.collisionInv {F : Type} [One F] {st : Scene F}
    (h : SceneReachable st) : CollisionInv st.Comp := by
  induction h with
  | ctor _ _ _ _ => exact CollisionInv.of_empty _ rfl rfl rfl
  | world _ _ ih => exact ih
  | CreateClothFromMesh B V I M _ _ =>
    obtain ⟨h1, h2, h3⟩ := UClothComponent.CreateClothFromMesh_collision_empty B _ V I M
    exact CollisionInv.of_empty _ h1 h2 h3
  | DestroyCloth _ _ => exact CollisionInv.of_empty _ rfl rfl rfl
  | ApplyClothConfig Config _ ih => exact CollisionInv.ApplyClothConfig _ Config ih
  | UpdateClothTransform T R _ ih => exact CollisionInv.UpdateClothTransform _ T R ih
  | AddCollisionSphere Center Radius _ ih => exact CollisionInv.AddCollisionSphere _ _ _ ih
  | AddCollisionCapsule i0 i1 _ ih => exact CollisionInv.AddCollisionCapsule _ i0 i1 ih
  | ClearCollision B _ _ => exact CollisionInv.ClearCollision B _

theorem sceneEmpty_reachable : SceneReachable sceneEmpty :=
  SceneReachable.ctor sampleConfig ⟨0, 0, 0⟩ ⟨0, 0, 0, 1⟩ _

theorem sceneLive_reachable : SceneReachable sceneLive :=
  SceneReachable.AddCollisionSphere ⟨5, 5, 5⟩ 2
    (SceneReachable.CreateClothFromMesh triangleBackend triangleVertices [0, 1, 2] []
      sceneEmpty_reachable)

/-! ## `AddCollisionCapsule` -/

/-- C11: in every wrapper state, `AddCollisionCapsule(i0, i1)` with `i0` or `i1` greater than
or equal to the current sphere count leaves the wrapper (its capsule-index list included)
unchanged and sends nothing; with both indices below the sphere count and a live instance the
capsule-index list becomes the old list followed by `i0, i1`, and that whole list is sent in
one `setCapsules` call starting at index `0`. -/
theorem AddCollisionCapsule_index_check {F : Type} (C : UClothComponent F)
    (SphereIndex0 SphereIndex1 : Nat) :
    ((SphereIndex0 ≥ C.CollisionSpheres.length ∨ SphereIndex1 ≥ C.CollisionSpheres.length) →
      UClothComponent.AddCollisionCapsule C SphereIndex0 SphereIndex1 = (C, [])) ∧
    (∀ c, C.Cloth = some c → SphereIndex0 < C.CollisionSpheres.length →
      SphereIndex1 < C.CollisionSpheres.length →
      (UClothComponent.AddCollisionCapsule C SphereIndex0
        SphereIndex1).1.CollisionCapsuleIndices
          = C.CollisionCapsuleIndices ++ [SphereIndex0, SphereIndex1] ∧
      (UClothComponent.AddCollisionCapsule C SphereIndex0 SphereIndex1).2 =
        [NvCall.setCapsules c (C.CollisionCapsuleIndices ++ [SphereIndex0, SphereIndex1]) 0
          ((C.CollisionCapsuleIndices ++ [SphereIndex0, SphereIndex1]).length / 2)]) := by
  constructor
  · exact UClothComponent.AddCollisionCapsule_rejected C _ _
  · intro c hc h0 h1
    rw [UClothComponent.AddCollisionCapsule_live C _ _ c hc h0 h1]
    exact ⟨rfl, rfl⟩

/-- Witness for C11: on the live wrapper with one sphere, the pair `(0, 1)` is rejected and the
pair `(0, 0)` is appended and sent. -/
theorem AddCollisionCapsule_index_check_witness :
    UClothComponent.AddCollisionCapsule sceneLive.Comp 0 1 = (sceneLive.Comp, []) ∧
    (UClothComponent.AddCollisionCapsule sceneLive.Comp 0 0).1.CollisionCapsuleIndices
      = [0, 0] ∧
    (UClothComponent.AddCollisionCapsule sceneLive.Comp 0 0).2
      = [NvCall.setCapsules 7 [0, 0] 0 1] := by
  have h := AddCollisionCapsule_index_check sceneLive.Comp 0 1
  have h2 := (AddCollisionCapsule_index_check sceneLive.Comp 0 0).2 7 rfl (by decide)
    (by decide)
  exact ⟨h.1 (Or.inr (by decide)), h2.1, h2.2⟩

/-! ## `AddCollisionSphere` -/

/-- C12: in every reachable wrapper state with a live instance, `AddCollisionSphere(Center,
Radius)` makes the sphere list the previous list followed by `(Center, Radius)` and sends one
`setSpheres` call whose range is the entire updated list from index `0`: as many entries as
spheres, entry `i` being `(center_i, radius_i)`, the last one the new sphere. -/
theorem AddCollisionSphere_resends_all {F : Type} [One F] (st : Scene F)
    (hs : SceneReachable st) (c : Nat) (hc : st.Comp.Cloth = some c) (Center : FVector F)
    (Radius : F) :
    (UClothComponent.AddCollisionSphere st.Comp Center Radius).1.CollisionSpheres
      = st.Comp.CollisionSpheres ++ [Center] ∧
    (UClothComponent.AddCollisionSphere st.Comp Center Radius).1.CollisionRadii
      = st.Comp.CollisionRadii ++ [Radius] ∧
    ∃ Spheres : List (PxVec4 F),
      (UClothComponent.AddCollisionSphere st.Comp Center Radius).2
        = [NvCall.setSpheres c Spheres 0 Spheres.length] ∧
      Spheres.length = st.Comp.CollisionSpheres.length + 1 ∧
      (∀ (i : Nat) (ctr : FVector F) (rad : F),
        (UClothComponent.AddCollisionSphere st.Comp Center Radius).1.CollisionSpheres[i]?
          = some ctr →
        (UClothComponent.AddCollisionSphere st.Comp Center Radius).1.CollisionRadii[i]?
          = some rad →
        Spheres[i]? = some (PxVec4.mk ctr.X ctr.Y ctr.Z rad)) ∧
      Spheres[st.Comp.CollisionSpheres.length]?
        = some (PxVec4.mk Center.X Center.Y Center.Z Radius) := by
  have hr := hs.collisionInv.radii
  rw [UClothComponent.AddCollisionSphere_live st.Comp Center Radius c hc]
  refine ⟨rfl, rfl, _, rfl, ?_, ?_, ?_⟩
  · simp [UClothComponent.Spheres, hr]
  · intro i ctr rad h1 h2
    have h1' : (st.Comp.CollisionSpheres ++ [Center])[i]? = some ctr := h1
    have h2' : (st.Comp.CollisionRadii ++ [Radius])[i]? = some rad := h2
    simp only [UClothComponent.Spheres, List.getElem?_zipWith, h1', h2']
  · have e1 : (st.Comp.CollisionSpheres ++ [Center])[st.Comp.CollisionSpheres.length]?
        = some Center := by simp
    have e2 : (st.Comp.CollisionRadii ++ [Radius])[st.Comp.CollisionSpheres.length]?
        = some Radius := by rw [hr]; simp
    simp only [UClothComponent.Spheres, List.getElem?_zipWith, e1, e2]

/-- Witness for C12: a second sphere added to the live wrapper that already has one. -/
theorem AddCollisionSphere_resends_all_witness :
    (UClothComponent.AddCollisionSphere sceneLive.Comp ⟨1, 2, 3⟩ 4).1.CollisionSpheres
      = [⟨5, 5, 5⟩, ⟨1, 2, 3⟩] ∧
    (UClothComponent.AddCollisionSphere sceneLive.Comp ⟨1, 2, 3⟩ 4).2
      = [NvCall.setSpheres 7 [⟨5, 5, 5, 2⟩, ⟨1, 2, 3, 4⟩] 0 2] := by
  have h := AddCollisionSphere_resends_all sceneLive sceneLive_reachable 7 rfl ⟨1, 2, 3⟩ 4
  exact ⟨h.1, by decide⟩

/-! ## `UpdateClothTransform` -/

/-- C16, as amended: with a live instance, after `UpdateClothTransform(t, r)` the cached
translation is `t`, the cached rotation is `r`, and `setTranslation`, `setRotation` are sent to
the instance; with no live instance the call changes nothing, the cached translation and
rotation keeping their previous values, and nothing is sent. -/
theorem UpdateClothTransform_cached {F : Type} (C : UClothComponent F)
    (Translation : FVector F) (Rotation : FQuat F) :
    (∀ c, C.Cloth = some c →
      (UClothComponent.UpdateClothTransform C Translation Rotation).1.CachedTranslation
        = Translation ∧
      (UClothComponent.UpdateClothTransform C Translation Rotation).1.CachedRotation
        = Rotation ∧
      (UClothComponent.UpdateClothTransform C Translation Rotation).2 =
        [NvCall.setTranslation c ⟨Translation.X, Translation.Y, Translation.Z⟩,
         NvCall.setRotation c ⟨Rotation.X, Rotation.Y, Rotation.Z, Rotation.W⟩]) ∧
    (C.Cloth = none →
      UClothComponent.UpdateClothTransform C Translation Rotation = (C, [])) := by
  constructor
  · intro c hc
    rw [UClothComponent.UpdateClothTransform_live C Translation Rotation c hc]
    exact ⟨rfl, rfl, rfl⟩
  · exact UClothComponent.UpdateClothTransform_no_cloth C Translation Rotation

/-- Witness for C16: the live wrapper caches and forwards the transform. -/
theorem UpdateClothTransform_cached_witness :
    (UClothComponent.UpdateClothTransform sceneLive.Comp ⟨1, 2, 3⟩
      ⟨0, 0, 1, 0⟩).1.CachedTranslation = ⟨1, 2, 3⟩ ∧
    (UClothComponent.UpdateClothTransform sceneLive.Comp ⟨1, 2, 3⟩ ⟨0, 0, 1, 0⟩).2 =
      [NvCall.setTranslation 7 ⟨1, 2, 3⟩, NvCall.setRotation 7 ⟨0, 0, 1, 0⟩] := by
  have h := (UpdateClothTransform_cached sceneLive.Comp ⟨1, 2, 3⟩ ⟨0, 0, 1, 0⟩).1 7 rfl
  exact ⟨h.1, h.2.2⟩

/-- C16 counterexample: `compEmpty` holds no instance and caches translation `(0, 0, 0)` and
rotation `(0, 0, 0, 1)`; after `UpdateClothTransform((1, 2, 3), (0, 0, 1, 0))` both cached
values are still the old ones, not the arguments. -/
theorem UpdateClothTransform_not_cached_counterexample :
    compEmpty.Cloth = none ∧
    (UClothComponent.UpdateClothTransform compEmpty ⟨1, 2, 3⟩ ⟨0, 0, 1, 0⟩).1.CachedTranslation
      = ⟨0, 0, 0⟩ ∧
    (UClothComponent.UpdateClothTransform compEmpty ⟨1, 2, 3⟩ ⟨0, 0, 1, 0⟩).1.CachedRotation
      = ⟨0, 0, 0, 1⟩ ∧
    (UClothComponent.UpdateClothTransform compEmpty ⟨1, 2, 3⟩ ⟨0, 0, 1, 0⟩).1.CachedTranslation
      ≠ ⟨1, 2, 3⟩ ∧
    (UClothComponent.UpdateClothTransform compEmpty ⟨1, 2, 3⟩ ⟨0, 0, 1, 0⟩).1.CachedRotation
      ≠ ⟨0, 0, 1, 0⟩ := by
  decide

/-! ## The collision-list invariant -/

/-- C17: in every wrapper state reachable from the constructed component by any sequence of
`CreateClothFromMesh`, `DestroyCloth`, `AddCollisionSphere`, `AddCollisionCapsule` and
`ClearCollision` (and of `ApplyClothConfig`, `UpdateClothTransform` and changes of the world),
the sphere-center list and the radius list have equal length, the capsule-index list has even
length, and every capsule index is strictly less than the sphere count. -/
theorem collision_lists_invariant {F : Type} [One F] (st : Scene F) (hs : SceneReachable st) :
    st.Comp.CollisionSpheres.length = st.Comp.CollisionRadii.length ∧
    st.Comp.CollisionCapsuleIndices.length % 2 = 0 ∧
    ∀ i ∈ st.Comp.CollisionCapsuleIndices, i < st.Comp.CollisionSpheres.length :=
  ⟨hs.collisionInv.radii, hs.collisionInv.even, hs.collisionInv.bound⟩

/-- Witness for C17: the live wrapper with one sphere, after `AddCollisionCapsule(0, 0)`. -/
theorem collision_lists_invariant_witness :
    (UClothComponent.AddCollisionCapsule sceneLive.Comp 0 0).1.CollisionSpheres.length = 1 ∧
    (UClothComponent.AddCollisionCapsule sceneLive.Comp 0 0).1.CollisionRadii.length = 1 ∧
    (UClothComponent.AddCollisionCapsule sceneLive.Comp 0 0).1.CollisionCapsuleIndices
      = [0, 0] ∧
    ∀ i ∈ (UClothComponent.AddCollisionCapsule sceneLive.Comp 0 0).1.CollisionCapsuleIndices,
      i < (UClothComponent.AddCollisionCapsule sceneLive.Comp 0 0).1.CollisionSpheres.length := by
  have h := collision_lists_invariant
    { sceneLive with Comp := (UClothComponent.AddCollisionCapsule sceneLive.Comp 0 0).1 }
    (SceneReachable.AddCollisionCapsule 0 0 sceneLive_reachable)
  exact ⟨by decide, by decide, by decide, h.2.2⟩

/-! ## Collision primitives are not staged -/

theorem FClothSimulationSystem.UnregisterCloth_no_collision_call {F : Type}
    (sys : FClothSimulationSystem) (Cloth : Ptr) :
    ∀ k ∈ (sys.UnregisterCloth (F := F) Cloth).2, k.isCollisionCall = false := by
  unfold FClothSimulationSystem.UnregisterCloth
  cases sys.Solver <;> cases Cloth <;> try simp
  cases TArray.Find sys.RegisteredCloths (some _) <;> simp [NvCall.isCollisionCall]

theorem FClothSimulationSystem.RegisterCloth_no_collision_call {F : Type}
    (sys : FClothSimulationSystem) (Cloth : Ptr) :
    ∀ k ∈ (sys.RegisterCloth (F := F) Cloth).2, k.isCollisionCall = false := by
  unfold FClothSimulationSystem.RegisterCloth
  cases sys.bInitialized <;> cases sys.Solver <;> cases Cloth <;> try simp
  cases TArray.Find sys.RegisteredCloths (some _) <;> simp [NvCall.isCollisionCall]

theorem UClothComponent.DestroyCloth_no_collision_call {F : Type} (st : Scene F) :
    ∀ k ∈ (UClothComponent.DestroyCloth st).2, k.isCollisionCall = false := by
  intro k hk
  unfold UClothComponent.DestroyCloth at hk
  have hfab : ∀ k ∈ (match st.Comp.Fabric with
      | some f => [NvCall.decRefCount f]
      | none => ([] : List (NvCall F))), k.isCollisionCall = false := by
    cases st.Comp.Fabric <;> simp [NvCall.isCollisionCall]
  simp only [List.mem_append] at hk
  rcases hk with hk | hk
  · cases hc : st.Comp.Cloth with
    | none => simp [hc] at hk
    | some c =>
      cases hsys : UClothComponent.GetClothSystem st with
      | none =>
        simp [hc, hsys] at hk
        subst hk
        rfl
      | some sys =>
        simp only [hc, hsys, List.mem_append, List.mem_singleton] at hk
        rcases hk with hk | hk
        · exact FClothSimulationSystem.UnregisterCloth_no_collision_call sys _ k hk
        · subst hk
          rfl
  · exact hfab k hk

theorem UClothComponent.ApplyClothConfigCalls_no_collision_call {F : Type} (c : Nat)
    (Config : FClothConfig F) :
    ∀ k ∈ UClothComponent.ApplyClothConfigCalls c Config, k.isCollisionCall = false := by
  intro k hk
  simp only [UClothComponent.ApplyClothConfigCalls, List.mem_cons, List.mem_singleton,
    List.not_mem_nil, or_false] at hk
  rcases hk with h | h | h | h | h | h | h | h | h | h | h | h | h | h <;> subst h <;> rfl

theorem UClothComponent.CreateClothFromMesh_no_collision_call {F : Type} [One F]
    (B : NvBackend F) (st : Scene F) (Vertices : List (FVector F)) (Indices : List Nat)
    (InvMasses : List F) :
    ∀ k ∈ (UClothComponent.CreateClothFromMesh B st Vertices Indices InvMasses).calls,
      k.isCollisionCall = false := by
  have hd := UClothComponent.DestroyCloth_no_collision_call st
  intro k hk
  rcases UClothComponent.CreateClothFromMesh_cases B st Vertices Indices InvMasses with
    h | ⟨hV, hI, sys, fac, hsys, hinit, hfac, hcook | ⟨fab, hcook, hcreate | ⟨c, hcreate⟩⟩⟩
  · rw [UClothComponent.CreateClothFromMesh_precondition B st Vertices Indices InvMasses h]
      at hk
    exact hd k hk
  · rw [UClothComponent.CreateClothFromMesh_cook_null B st Vertices Indices InvMasses hV hI sys
      hsys hinit fac hfac hcook] at hk
    simp only [List.mem_append, List.mem_singleton] at hk
    rcases hk with hk | hk
    · exact hd k hk
    · subst hk; rfl
  · rw [UClothComponent.CreateClothFromMesh_create_null B st Vertices Indices InvMasses hV hI
      sys hsys hinit fac hfac fab hcook hcreate] at hk
    simp only [List.mem_append, List.mem_cons, List.mem_singleton, List.not_mem_nil,
      or_false] at hk
    rcases hk with hk | hk | hk | hk
    · exact hd k hk
    · subst hk; rfl
    · subst hk; rfl
    · subst hk; rfl
  · rw [UClothComponent.CreateClothFromMesh_ok B st Vertices Indices InvMasses hV hI sys
      hsys hinit fac hfac fab hcook c hcreate] at hk
    simp only [List.mem_append, List.mem_cons, List.mem_singleton, List.not_mem_nil,
      or_false] at hk
    rcases hk with ((hk | hk | hk) | hk) | hk
    · exact hd k hk
    · subst hk; rfl
    · subst hk; rfl
    · exact UClothComponent.ApplyClothConfigCalls_no_collision_call c _ k hk
    · exact FClothSimulationSystem.RegisterCloth_no_collision_call sys _ k hk

/-- C18: on a wrapper with no live instance `AddCollisionSphere` and `AddCollisionCapsule`
change nothing (sphere, radius and capsule lists included) and send nothing.  Every
`CreateClothFromMesh` call, successful or not and from any state, works on the empty collision
lists its leading `DestroyCloth` leaves, returns with them empty and sends no `setSpheres` or
`setCapsules`; so creating after an `AddCollisionSphere` on the instance-less wrapper is the
same as creating without it, and the sphere is not on the new instance. -/
theorem collision_not_staged {F : Type} [One F] (B : NvBackend F) (st : Scene F)
    (hno : st.Comp.Cloth = none) (Center : FVector F) (Radius : F)
    (SphereIndex0 SphereIndex1 : Nat) (Vertices : List (FVector F)) (Indices : List Nat)
    (InvMasses : List F) :
    UClothComponent.AddCollisionSphere st.Comp Center Radius = (st.Comp, []) ∧
    UClothComponent.AddCollisionCapsule st.Comp SphereIndex0 SphereIndex1 = (st.Comp, []) ∧
    (∀ st2 : Scene F,
      ((UClothComponent.DestroyCloth st2).1.Comp.CollisionSpheres = [] ∧
        (UClothComponent.DestroyCloth st2).1.Comp.CollisionRadii = [] ∧
        (UClothComponent.DestroyCloth st2).1.Comp.CollisionCapsuleIndices = []) ∧
      ((UClothComponent.CreateClothFromMesh B st2 Vertices Indices
          InvMasses).st.Comp.CollisionSpheres = [] ∧
        (UClothComponent.CreateClothFromMesh B st2 Vertices Indices
          InvMasses).st.Comp.CollisionRadii = [] ∧
        (UClothComponent.CreateClothFromMesh B st2 Vertices Indices
          InvMasses).st.Comp.CollisionCapsuleIndices = []) ∧
      ∀ k ∈ (UClothComponent.CreateClothFromMesh B st2 Vertices Indices InvMasses).calls,
        k.isCollisionCall = false) ∧
    UClothComponent.CreateClothFromMesh B
        { st with Comp := (UClothComponent.AddCollisionSphere st.Comp Center Radius).1 }
        Vertices Indices InvMasses
      = UClothComponent.CreateClothFromMesh B st Vertices Indices InvMasses := by
  refine ⟨UClothComponent.AddCollisionSphere_no_cloth _ _ _ hno,
    UClothComponent.AddCollisionCapsule_no_cloth _ _ _ hno, ?_, ?_⟩
  · intro st2
    exact ⟨⟨rfl, rfl, rfl⟩,
      UClothComponent.CreateClothFromMesh_collision_empty B st2 Vertices Indices InvMasses,
      UClothComponent.CreateClothFromMesh_no_collision_call B st2 Vertices Indices InvMasses⟩
  · rw [UClothComponent.AddCollisionSphere_no_cloth _ _ _ hno]

/-- Witness for C18: a sphere "added" to the empty wrapper is dropped, and the instance created
afterwards receives no collision call. -/
theorem collision_not_staged_witness :
    sceneEmpty.Comp.Cloth = none ∧
    UClothComponent.AddCollisionSphere sceneEmpty.Comp ⟨5, 5, 5⟩ 2 = (sceneEmpty.Comp, []) ∧
    (UClothComponent.CreateClothFromMesh triangleBackend
        { sceneEmpty with
          Comp := (UClothComponent.AddCollisionSphere sceneEmpty.Comp ⟨5, 5, 5⟩ 2).1 }
        triangleVertices [0, 1, 2] []).st.Comp.CollisionSpheres = [] ∧
    ∀ k ∈ (UClothComponent.CreateClothFromMesh triangleBackend sceneEmpty triangleVertices
        [0, 1, 2] []).calls, k.isCollisionCall = false := by
  have h := collision_not_staged triangleBackend sceneEmpty rfl ⟨5, 5, 5⟩ 2 0 0
    triangleVertices [0, 1, 2] []
  refine ⟨rfl, h.1, ?_, (h.2.2.1 sceneEmpty).2.2⟩
  rw [h.2.2.2]
  exact (h.2.2.1 sceneEmpty).2.1.1

/-! ## Case equations of `LoadClothData` -/

namespace USkeletalMesh

theorem LoadClothData_absent {F : Type} [OfScientific F] [Neg F] {Disk : Type}
    (api : FileApi F Disk) (D : Disk) (M : USkeletalMesh F) (Data : FSkeletalMeshData F)
    (hM : M.Data = some Data) (FilePath : String)
    (h : ResolvedPath api M FilePath = "" ∨
      api.fileExists D (ResolvedPath api M FilePath) = false) :
    LoadClothData api D M FilePath = ⟨false, M, []⟩ := by
  unfold LoadClothData
  simp only [hM]
  unfold ResolvedPath at h
  rcases h with h | h
  · simp [h]
  · by_cases hp : (if FilePath = "" then GetClothDataPath api M else FilePath) = ""
    · simp [hp]
    · simp [hp, h]

theorem LoadClothData_unreadable {F : Type} [OfScientific F] [Neg F] {Disk : Type}
    (api : FileApi F Disk) (D : Disk) (M : USkeletalMesh F) (Data : FSkeletalMeshData F)
    (hM : M.Data = some Data) (FilePath : String)
    (hp : ResolvedPath api M FilePath ≠ "")
    (he : api.fileExists D (ResolvedPath api M FilePath) = true)
    (hl : api.LoadJsonFromFile D (ResolvedPath api M FilePath) = none) :
    LoadClothData api D M FilePath =
      ⟨false, M, [ClothLog.LoadCouldNotRead (ResolvedPath api M FilePath)]⟩ := by
  unfold LoadClothData
  simp only [hM]
  unfold ResolvedPath at hp he hl ⊢
  simp [hp, he, hl]

theorem LoadClothData_wrong_type {F : Type} [OfScientific F] [Neg F] {Disk : Type}
    (api : FileApi F Disk) (D : Disk) (M : USkeletalMesh F) (Data : FSkeletalMeshData F)
    (hM : M.Data = some Data) (FilePath : String)
    (hp : ResolvedPath api M FilePath ≠ "")
    (he : api.fileExists D (ResolvedPath api M FilePath) = true) (Root : JSON F)
    (hl : api.LoadJsonFromFile D (ResolvedPath api M FilePath) = some Root)
    (ht : FJsonSerializer.ReadString Root "Type" ≠ some "ClothAssetData") :
    LoadClothData api D M FilePath = ⟨false, M, [ClothLog.LoadInvalidFileType]⟩ := by
  unfold LoadClothData
  simp only [hM]
  unfold ResolvedPath at hp he hl
  simp [hp, he, hl, ht]

theorem LoadClothData_ok {F : Type} [OfScientific F] [Neg F] {Disk : Type}
    (api : FileApi F Disk) (D : Disk) (M : USkeletalMesh F) (Data : FSkeletalMeshData F)
    (hM : M.Data = some Data) (FilePath : String)
    (hp : ResolvedPath api M FilePath ≠ "")
    (he : api.fileExists D (ResolvedPath api M FilePath) = true) (Root : JSON F)
    (hl : api.LoadJsonFromFile D (ResolvedPath api M FilePath) = some Root)
    (ht : FJsonSerializer.ReadString Root "Type" = some "ClothAssetData")
    (ClothArray : List (JSON F))
    (ha : FJsonSerializer.ReadArray Root "ClothAssets" = some ClothArray) :
    LoadClothData api D M FilePath =
      ⟨true, { Data := some { Data with ClothAssets := ClothArray.map LoadClothJson } },
        [ClothLog.LoadDone (ResolvedPath api M FilePath) ClothArray.length]⟩ := by
  unfold LoadClothData
  simp only [hM]
  unfold ResolvedPath at hp he hl ⊢
  simp [hp, he, hl, ht, ha]

theorem ReadString_eq_some_iff {F : Type} (Root : JSON F) (key s : String) :
    FJsonSerializer.ReadString Root key = some s ↔ Root.member key = some (JSON.Str s) := by
  unfold FJsonSerializer.ReadString
  cases h : Root.member key with
  | none => simp
  | some v => cases v <;> simp

end USkeletalMesh

theorem listApi_faithful : listApi.Faithful := by
  intro D Root path D2 h
  simp only [listApi, Prod.mk.injEq, true_and] at h
  subst h
  simp [listApi, List.lookup]

/-! ## `LoadClothData`: failure -/

/-- C13: for every mesh with in-memory authoring data, `LoadClothData` on a path where no file
exists, on a file that cannot be parsed, or on a file whose `Type` member is missing or is not
the string `"ClothAssetData"`, returns false and leaves the mesh, and with it the
authoring-data list, as it was. -/
theorem LoadClothData_failure_keeps_data {F : Type} [OfScientific F] [Neg F] {Disk : Type}
    (api : FileApi F Disk) (D : Disk) (M : USkeletalMesh F) (Data : FSkeletalMeshData F)
    (hM : M.Data = some Data) (FilePath : String)
    (hbad : api.fileExists D (USkeletalMesh.ResolvedPath api M FilePath) = false ∨
      api.LoadJsonFromFile D (USkeletalMesh.ResolvedPath api M FilePath) = none ∨
      ∃ Root, api.LoadJsonFromFile D (USkeletalMesh.ResolvedPath api M FilePath) = some Root ∧
        Root.member "Type" ≠ some (JSON.Str "ClothAssetData")) :
    (USkeletalMesh.LoadClothData api D M FilePath).ret = false ∧
    (USkeletalMesh.LoadClothData api D M FilePath).mesh = M ∧
    (USkeletalMesh.LoadClothData api D M FilePath).mesh.Data.map
      FSkeletalMeshData.ClothAssets = some Data.ClothAssets := by
  have hL : some Data.ClothAssets = M.Data.map FSkeletalMeshData.ClothAssets := by
    rw [hM]; rfl
  by_cases hp : USkeletalMesh.ResolvedPath api M FilePath = ""
  · rw [USkeletalMesh.LoadClothData_absent api D M Data hM FilePath (Or.inl hp)]
    exact ⟨rfl, rfl, hL.symm⟩
  cases he : api.fileExists D (USkeletalMesh.ResolvedPath api M FilePath) with
  | false =>
    rw [USkeletalMesh.LoadClothData_absent api D M Data hM FilePath (Or.inr he)]
    exact ⟨rfl, rfl, hL.symm⟩
  | true =>
    cases hl : api.LoadJsonFromFile D (USkeletalMesh.ResolvedPath api M FilePath) with
    | none =>
      rw [USkeletalMesh.LoadClothData_unreadable api D M Data hM FilePath hp he hl]
      exact ⟨rfl, rfl, hL.symm⟩
    | some Root =>
      rcases hbad with h | h | ⟨Root2, h, ht⟩
      · rw [he] at h; cases h
      · rw [hl] at h; cases h
      · rw [hl] at h
        cases h
        have ht2 : FJsonSerializer.ReadString Root "Type" ≠ some "ClothAssetData" :=
          fun e => ht ((USkeletalMesh.ReadString_eq_some_iff Root _ _).mp e)
        rw [USkeletalMesh.LoadClothData_wrong_type api D M Data hM FilePath hp he Root hl ht2]
        exact ⟨rfl, rfl, hL.symm⟩

/-- Witness for C13: loading a file with a foreign type tag into the sample mesh. -/
theorem LoadClothData_failure_keeps_data_witness :
    (USkeletalMesh.LoadClothData listApi [("hero.cloth.json", some wrongTypeRoot)] sampleMesh
      "hero.cloth.json").ret = false ∧
    (USkeletalMesh.LoadClothData listApi [("hero.cloth.json", some wrongTypeRoot)] sampleMesh
      "hero.cloth.json").mesh = sampleMesh := by
  have h := LoadClothData_failure_keeps_data listApi
    [("hero.cloth.json", some wrongTypeRoot)] sampleMesh _ rfl "hero.cloth.json"
    (Or.inr (Or.inr ⟨wrongTypeRoot, rfl, by
      intro h
      simp [wrongTypeRoot, JSON.member, List.lookup] at h⟩))
  exact ⟨h.1, h.2.1⟩

/-! ## `LoadClothData`: absence and failure -/

/-- C14, as amended: `LoadClothData` returns the same value, false, when the companion file
does not exist and when it exists but cannot be parsed or carries a wrong type tag, and leaves
the mesh unchanged in all three cases; the return value does not tell absence from failure.
Only the log differs: absence logs nothing, an unparsable file logs "Could not read file", a
wrong type tag logs "Invalid file type". -/
theorem LoadClothData_absence_and_failure {F : Type} [OfScientific F] [Neg F] {Disk : Type}
    (api : FileApi F Disk) (D : Disk) (M : USkeletalMesh F) (Data : FSkeletalMeshData F)
    (hM : M.Data = some Data) (FilePath : String)
    (hp : USkeletalMesh.ResolvedPath api M FilePath ≠ "") :
    (api.fileExists D (USkeletalMesh.ResolvedPath api M FilePath) = false →
      USkeletalMesh.LoadClothData api D M FilePath = ⟨false, M, []⟩) ∧
    (api.fileExists D (USkeletalMesh.ResolvedPath api M FilePath) = true →
      api.LoadJsonFromFile D (USkeletalMesh.ResolvedPath api M FilePath) = none →
      USkeletalMesh.LoadClothData api D M FilePath =
        ⟨false, M, [ClothLog.LoadCouldNotRead (USkeletalMesh.ResolvedPath api M FilePath)]⟩) ∧
    (api.fileExists D (USkeletalMesh.ResolvedPath api M FilePath) = true →
      ∀ Root, api.LoadJsonFromFile D (USkeletalMesh.ResolvedPath api M FilePath) = some Root →
        Root.member "Type" ≠ some (JSON.Str "ClothAssetData") →
        USkeletalMesh.LoadClothData api D M FilePath =
          ⟨false, M, [ClothLog.LoadInvalidFileType]⟩) := by
  refine ⟨?_, ?_, ?_⟩
  · intro he
    exact USkeletalMesh.LoadClothData_absent api D M Data hM FilePath (Or.inr he)
  · intro he hl
    exact USkeletalMesh.LoadClothData_unreadable api D M Data hM FilePath hp he hl
  · intro he Root hl ht
    exact USkeletalMesh.LoadClothData_wrong_type api D M Data hM FilePath hp he Root hl
      (fun e => ht ((USkeletalMesh.ReadString_eq_some_iff Root _ _).mp e))

/-- Witness for C14: the sample mesh and a path at which no file exists. -/
theorem LoadClothData_absence_and_failure_witness :
    USkeletalMesh.ResolvedPath listApi sampleMesh "hero.cloth.json" ≠ "" ∧
    (USkeletalMesh.LoadClothData listApi [] sampleMesh "hero.cloth.json").ret = false ∧
    (USkeletalMesh.LoadClothData listApi [] sampleMesh "hero.cloth.json").logs = [] := by
  have hp : USkeletalMesh.ResolvedPath listApi sampleMesh "hero.cloth.json" ≠ "" := by decide
  have h := (LoadClothData_absence_and_failure listApi [] sampleMesh _ rfl
    "hero.cloth.json" hp).1 rfl
  exact ⟨hp, by rw [h], by rw [h]⟩

/-- C14 counterexample: for the sample mesh and the path `hero.cloth.json`, the value returned
when no file exists equals the value returned when the file exists but cannot be parsed, and
the value returned when the file carries the type tag `"PhysicsAsset"`: all three are false. -/
theorem LoadClothData_same_value_counterexample :
    (USkeletalMesh.LoadClothData listApi [] sampleMesh "hero.cloth.json").ret = false ∧
    (USkeletalMesh.LoadClothData listApi [("hero.cloth.json", none)] sampleMesh
      "hero.cloth.json").ret = false ∧
    (USkeletalMesh.LoadClothData listApi [("hero.cloth.json", some wrongTypeRoot)] sampleMesh
      "hero.cloth.json").ret = false ∧
    (USkeletalMesh.LoadClothData listApi [] sampleMesh "hero.cloth.json").ret =
      (USkeletalMesh.LoadClothData listApi [("hero.cloth.json", none)] sampleMesh
        "hero.cloth.json").ret ∧
    (USkeletalMesh.LoadClothData listApi [] sampleMesh "hero.cloth.json").ret =
      (USkeletalMesh.LoadClothData listApi [("hero.cloth.json", some wrongTypeRoot)] sampleMesh
        "hero.cloth.json").ret := by
  decide

/-! ## `SaveClothData` followed by `LoadClothData` -/

theorem static_cast_uint32_int64 (Idx : Nat) (h : Idx < 2 ^ 32) :
    static_cast_uint32 (static_cast_int64 Idx) = Idx := by
  unfold static_cast_uint32 static_cast_int64
  omega

theorem static_cast_int32_of_range (n : Int) (h1 : -(2 ^ 31 : Int) ≤ n) (h2 : n < 2 ^ 31) :
    static_cast_int32 n = n := by
  unfold static_cast_int32
  omega

namespace USkeletalMesh

theorem JSON.ToInt_Integral {F : Type} (n : Int) : (JSON.Integral n : JSON F).ToInt = n :=
  rfl

theorem map_saved_indices {F : Type} (Indices : List Nat)
    (hr : ∀ Idx ∈ Indices, Idx < 2 ^ 32) :
    (Indices.map fun (Idx : Nat) =>
        (JSON.Integral (static_cast_int64 (Idx : Int)) : JSON F)).map
      (fun item => static_cast_uint32 item.ToInt) = Indices := by
  induction Indices with
  | nil => rfl
  | cons a as ih =>
    simp only [List.map_cons]
    rw [ih (fun i hi => hr i (List.mem_cons_of_mem _ hi)), JSON.ToInt_Integral,
      static_cast_uint32_int64 a (hr a (List.mem_cons_self _ _))]

theorem LoadIndices_saved {F : Type} (members : List (String × JSON F)) (Key : String)
    (Indices : List Nat) (hr : ∀ Idx ∈ Indices, Idx < 2 ^ 32)
    (hm : members.lookup Key =
      some (JSON.Array (Indices.map fun (Idx : Nat) =>
        JSON.Integral (static_cast_int64 (Idx : Int))))) :
    LoadIndices (JSON.Object members) Key = Indices := by
  unfold LoadIndices FJsonSerializer.ReadArray JSON.member
  simp only [hm]
  exact map_saved_indices Indices hr

theorem LoadClothJson_SaveClothJson {F : Type} [OfScientific F] [Neg F]
    (Cloth : FClothAssetData F) (h : Cloth.InRange) :
    LoadClothJson (SaveClothJson Cloth) = Cloth := by
  obtain ⟨h1, h2, h3, h4⟩ := h
  have e1 : LoadIndices (SaveClothJson Cloth) "ClothVertexIndices" = Cloth.ClothVertexIndices :=
    LoadIndices_saved _ _ _ h3 (by simp [List.lookup])
  have e2 : LoadIndices (SaveClothJson Cloth) "FixedVertexIndices" = Cloth.FixedVertexIndices :=
    LoadIndices_saved _ _ _ h4 (by simp [List.lookup])
  unfold LoadClothJson
  rw [e1, e2]
  cases Cloth
  simp [SaveClothJson, FJsonSerializer.ReadInt32, FJsonSerializer.ReadFloat,
    FJsonSerializer.ReadVector, FJsonSerializer.VectorToJson, JSON.member, List.lookup]
  exact static_cast_int32_of_range _ h1 h2

theorem LoadClothJson_SaveClothJson_map {F : Type} [OfScientific F] [Neg F]
    (ClothAssets : List (FClothAssetData F)) (h : ∀ Cloth ∈ ClothAssets, Cloth.InRange) :
    (ClothAssets.map SaveClothJson).map LoadClothJson = ClothAssets := by
  rw [List.map_map]
  calc List.map (LoadClothJson ∘ SaveClothJson) ClothAssets
      = List.map id ClothAssets := by
        apply List.map_congr_left
        intro Cloth hC
        exact LoadClothJson_SaveClothJson Cloth (h Cloth hC)
    _ = ClothAssets := List.map_id _

theorem SaveClothData_of_ret {F : Type} {Disk : Type} (api : FileApi F Disk) (D : Disk)
    (M : USkeletalMesh F) (Data : FSkeletalMeshData F) (hM : M.Data = some Data)
    (FilePath : String) (hsave : (SaveClothData api D M FilePath).ret = true) :
    ResolvedPath api M FilePath ≠ "" ∧
    api.SaveJsonToFile D (SaveRoot Data) (ResolvedPath api M FilePath)
      = (true, (SaveClothData api D M FilePath).disk) := by
  unfold SaveClothData at hsave ⊢
  unfold ResolvedPath
  simp only [hM] at hsave ⊢
  by_cases hp : (if FilePath = "" then GetClothDataPath api M else FilePath) = ""
  · simp [hp] at hsave
  · simp only [hp, if_false] at hsave ⊢
    cases hw : (api.SaveJsonToFile D (SaveRoot Data)
        (if FilePath = "" then GetClothDataPath api M else FilePath)).1 with
    | false => simp [hw] at hsave
    | true =>
      refine ⟨hp, ?_⟩
      simp only [hw, if_true]
      exact Prod.ext hw rfl

end USkeletalMesh

/-- C15: for every mesh whose authoring-data list holds records with values in the range of
their types, and every file API that reads back what it wrote, a `SaveClothData` that reports
success followed by `LoadClothData` from the same path (into the same mesh or into any mesh
that resolves to the same path) returns true and yields exactly the saved list: the same
number of records, in the same order, each with the same `SectionIndex`, `ClothVertexIndices`,
`FixedVertexIndices`, `Gravity`, `Damping`, `SolverFrequency`, `WindVelocity`,
`DragCoefficient`, `LiftCoefficient`, `StretchStiffness` and `BendStiffness`; no default takes
the place of a written field. -/
theorem SaveClothData_LoadClothData_roundtrip {F : Type} [OfScientific F] [Neg F]
    {Disk : Type} (api : FileApi F Disk) (hapi : api.Faithful) (D : Disk)
    (M : USkeletalMesh F) (Data : FSkeletalMeshData F) (hM : M.Data = some Data)
    (hrange : ∀ Cloth ∈ Data.ClothAssets, Cloth.InRange) (FilePath : String)
    (hsave : (USkeletalMesh.SaveClothData api D M FilePath).ret = true)
    (M2 : USkeletalMesh F) (Data2 : FSkeletalMeshData F) (hM2 : M2.Data = some Data2)
    (hpath : USkeletalMesh.ResolvedPath api M2 FilePath
      = USkeletalMesh.ResolvedPath api M FilePath) :
    (USkeletalMesh.LoadClothData api (USkeletalMesh.SaveClothData api D M FilePath).disk M2
      FilePath).ret = true ∧
    (USkeletalMesh.LoadClothData api (USkeletalMesh.SaveClothData api D M FilePath).disk M2
      FilePath).mesh.Data = some { Data2 with ClothAssets := Data.ClothAssets } ∧
    ((USkeletalMesh.LoadClothData api (USkeletalMesh.SaveClothData api D M FilePath).disk M2
      FilePath).mesh.Data.map fun d => d.ClothAssets.length)
        = some Data.ClothAssets.length := by
  obtain ⟨hp, hw⟩ := USkeletalMesh.SaveClothData_of_ret api D M Data hM FilePath hsave
  obtain ⟨he, hl⟩ := hapi _ _ _ _ hw
  rw [← hpath] at hp he hl
  have ht : FJsonSerializer.ReadString (USkeletalMesh.SaveRoot Data) "Type"
      = some "ClothAssetData" := by
    simp [FJsonSerializer.ReadString, USkeletalMesh.SaveRoot, JSON.member, List.lookup]
  have ha : FJsonSerializer.ReadArray (USkeletalMesh.SaveRoot Data) "ClothAssets"
      = some (Data.ClothAssets.map USkeletalMesh.SaveClothJson) := by
    simp [FJsonSerializer.ReadArray, USkeletalMesh.SaveRoot, JSON.member, List.lookup]
  rw [USkeletalMesh.LoadClothData_ok api _ M2 Data2 hM2 FilePath hp he _ hl ht _ ha,
    USkeletalMesh.LoadClothJson_SaveClothJson_map _ hrange]
  exact ⟨rfl, rfl, rfl⟩

theorem sampleClothAssets_inRange : ∀ Cloth ∈ sampleClothAssets, Cloth.InRange := by
  intro Cloth hC
  simp only [sampleClothAssets, List.mem_cons, List.mem_singleton, List.not_mem_nil,
    or_false] at hC
  rcases hC with rfl | rfl
  · exact ⟨by decide, by decide, by decide, by decide⟩
  · exact ⟨by decide, by decide, by decide, by decide⟩

/-- Witness for C15: the sample mesh saved to its derived companion path and loaded back into
a copy of the mesh whose list was empty. -/
theorem SaveClothData_LoadClothData_roundtrip_witness :
    (USkeletalMesh.SaveClothData listApi [] sampleMesh "").ret = true ∧
    (USkeletalMesh.LoadClothData listApi (USkeletalMesh.SaveClothData listApi [] sampleMesh
      "").disk { Data := some { PathFileName := "hero.fbx", ClothAssets := [] } } "").ret
        = true ∧
    (USkeletalMesh.LoadClothData listApi (USkeletalMesh.SaveClothData listApi [] sampleMesh
      "").disk { Data := some { PathFileName := "hero.fbx", ClothAssets := [] } } "").mesh
        = sampleMesh := by
  have hs : (USkeletalMesh.SaveClothData listApi [] sampleMesh "").ret = true := by decide
  have h := SaveClothData_LoadClothData_roundtrip listApi listApi_faithful [] sampleMesh _ rfl
    sampleClothAssets_inRange "" hs
    { Data := some { PathFileName := "hero.fbx", ClothAssets := [] } } _ rfl rfl
  refine ⟨hs, h.1, ?_⟩
  have h2 := h.2.1
  revert h2
  generalize (USkeletalMesh.LoadClothData listApi
    (USkeletalMesh.SaveClothData listApi [] sampleMesh "").disk
    { Data := some { PathFileName := "hero.fbx", ClothAssets := [] } } "").mesh = m
  intro h2
  cases m
  simp only at h2
  subst h2
  rfl

end Mundi
